import Mathlib

/-!
Shallow embedding of the backend inference pipeline of
src/yourinfo-main/server/ai-profiler.ts (repository runawaydevil/youare).

Modelling conventions:
* Time is an explicit natural-number parameter `now` (milliseconds), standing
  for Date.now().  JavaScript computes `Date.now() - lastError` with integer
  subtraction; for the one place this matters (the cooldown test) truncated
  Nat subtraction agrees with the JS comparison, since a negative difference
  and a zero difference both satisfy `< REDIS_BACKOFF_MS`.
* The module-level mutable globals of ai-profiler.ts (the two redis handles
  with their connecting/lastError flags, the rate-limit map, and the data
  living inside redis) are gathered into one explicit `ServerState` record
  that every operation threads through.
* External effects whose outcome the code merely observes (whether a redis
  connect attempt succeeds, whether a redis command throws, what a remote
  provider call produces after parsing) are an explicit `World` of oracles,
  so that one run of a pipeline function is a total function of
  (now, config, world, input, state).
* The instrumentation fields `connectAttempts`, `grokCalls`, `mimoCalls`,
  `profileWrites` and `auctionWrites` count/log, respectively, connection
  attempts, provider fetches and cache-write invocations; they are write-only
  from the code's point of view (no branch reads them), so they do not change
  behaviour.
* Redis stores JSON strings under string keys; the profile keys
  ("yourinfo:profile:...") and auction keys ("yourinfo:auction:...") can
  never collide, so the single redis keyspace is modelled as two disjoint
  association lists, with JSON serialisation round-tripping as the identity.
-/

namespace AIProfiler

/-- JavaScript `a || b` on an optional string: an absent or empty string is
falsy and selects the default. -/
def jsOrStr (s : Option String) (d : String) : String :=
  match s with
  | none => d
  | some v => if v = "" then d else v

/-- Source line 31: `const REDIS_URL = process.env.REDIS_URL || 'redis://localhost:6379'`.
The argument is the raw environment value. -/
def REDIS_URL (envValue : Option String) : String :=
  jsOrStr envValue "redis://localhost:6379"

/-- Source line 44: backoff window after a redis error, in milliseconds. -/
def REDIS_BACKOFF_MS : Nat := 5000

/-- Source line 129: profile cache TTL in seconds (30 days). -/
def CACHE_TTL : Nat := 60 * 60 * 24 * 30

/-- Source line 132: rate-limit window in milliseconds. -/
def RATE_LIMIT_WINDOW : Nat := 60 * 1000

/-- Source line 133: maximum AI requests per user per window. -/
def RATE_LIMIT_MAX : Nat := 2

/-- Source line 1152: auction cache TTL in seconds (1 hour). -/
def AUCTION_CACHE_TTL : Nat := 60 * 60

/-- State of one managed redis connection: the nullable client handle with its
isOpen flag (`clientOpen` models `redis !== null && redis.isOpen`), the
`connecting` guard flag, and the `lastError` timestamp (0 meaning "no recorded
error", as in the source where the variable is initialised to 0).
`connectAttempts` is instrumentation counting how many connection attempts
(createRedisClient + connect) were ever performed on this connection. -/
structure ConnState where
  clientOpen : Bool
  connecting : Bool
  lastError : Nat
  connectAttempts : Nat
deriving DecidableEq, Repr

/-- A fresh connection state, as at module load. -/
def ConnState.fresh : ConnState :=
  { clientOpen := false, connecting := false, lastError := 0, connectAttempts := 0 }

/-- Shared body of `getRedis` (source lines 64-94) and `getTrackingRedis`
(source lines 97-126); the two functions are textually identical up to which
global triple they touch.  `connectOk` is the oracle for whether the
connection attempt succeeds.  Returns (handle available?, new state). -/
def acquireConn (now : Nat) (connectOk : Bool) (c : ConnState) : Bool × ConnState :=
  if 0 < c.lastError ∧ now - c.lastError < REDIS_BACKOFF_MS then
    (false, c)
  else if c.clientOpen then
    (true, c)
  else if c.connecting then
    (false, c)
  else
    let c' := { c with connectAttempts := c.connectAttempts + 1 }
    if connectOk then
      (true, { c' with clientOpen := true, connecting := false, lastError := 0 })
    else
      (false, { c' with clientOpen := false, connecting := false, lastError := now })

/-- The in-memory rate-limit map `userRateLimits`: userId to (count, resetTime). -/
abbrev RLMap := List (String × (Nat × Nat))

/-- Map.get on the rate-limit map. -/
def rlLookup : RLMap → String → Option (Nat × Nat)
  | [], _ => none
  | (k, v) :: rest, u => if k = u then some v else rlLookup rest u

/-- Map.set on the rate-limit map (replace the first binding or append). -/
def rlSet : RLMap → String → (Nat × Nat) → RLMap
  | [], u, v => [(u, v)]
  | (k, w) :: rest, u, v => if k = u then (u, v) :: rest else (k, w) :: rlSet rest u v

/-- Source lines 146-162: the per-user fixed-window rate limiter.  The TS
mutates the map in place; here it returns (allowed?, new map).  The in-place
`userLimit.count++` is the `rlSet` with count+1 and an unchanged reset time. -/
def checkRateLimit (now : Nat) (userId : String) (m : RLMap) : Bool × RLMap :=
  match rlLookup m userId with
  | none => (true, rlSet m userId (1, now + RATE_LIMIT_WINDOW))
  | some (count, resetTime) =>
    if now > resetTime then
      (true, rlSet m userId (1, now + RATE_LIMIT_WINDOW))
    else if count ≥ RATE_LIMIT_MAX then
      (false, m)
    else
      (true, rlSet m userId (count + 1, resetTime))

/-- Source lines 137-144: the periodic sweep deleting expired windows. -/
def sweepRateLimits (now : Nat) (m : RLMap) : RLMap :=
  m.filter (fun e => ¬ now > e.2.2)

/-- Source lines 167-169: profile cache key derivation. -/
def getCacheKey (fingerprintId crossBrowserId : String) : String :=
  "yourinfo:profile:" ++ fingerprintId ++ ":" ++ crossBrowserId

/-- Whether the needle occurs as a contiguous subsequence of the haystack. -/
def listContainsSeq (needle : List Char) : List Char → Bool
  | [] => needle.isEmpty
  | c :: rest => List.isPrefixOf needle (c :: rest) || listContainsSeq needle rest

/-- Case-insensitive substring test, modelling
`haystack.toLowerCase().includes(needle.toLowerCase())` and the
case-insensitive regex tests of the source. -/
def strContainsCI (haystack needle : String) : Bool :=
  listContainsSeq needle.toLower.toList haystack.toLower.toList

/-- The `vpnDetection` object (only the field the profiler reads). -/
structure VpnDetection where
  likelyUsingVPN : Bool
deriving DecidableEq, Repr

/-- The `socialLogins` object (the four fields the fallback profiler reads). -/
structure SocialLogins where
  google : Bool
  facebook : Bool
  twitter : Bool
  github : Bool
deriving DecidableEq, Repr

/-- The `advancedBehavior` object (only the fields the profiler reads). -/
structure AdvancedBehavior where
  devToolsOpen : Bool
  keyboardShortcutsUsed : Option (List String)
deriving DecidableEq, Repr

/-- The slice of Partial ClientInfo that ai-profiler.ts actually reads.  Every
field is optional because the server receives a Partial record.  Fractional
JS numbers (devicePixelRatio, deviceMemory) are exact rationals. -/
structure ClientInfo where
  fingerprintId : Option String := none
  crossBrowserId : Option String := none
  fontsDetected : Option (List String) := none
  extensionsDetected : Option (List String) := none
  advancedBehavior : Option AdvancedBehavior := none
  gamepadsSupported : Option Bool := none
  webglRenderer : Option String := none
  installedApps : Option (List String) := none
  devicePixelRatio : Option ℚ := none
  colorGamut : Option String := none
  hdrSupported : Option Bool := none
  screenWidth : Option Nat := none
  hardwareConcurrency : Option Nat := none
  deviceMemory : Option ℚ := none
  languages : Option (List String) := none
  adBlockerDetected : Option Bool := none
  doNotTrack : Option Bool := none
  globalPrivacyControl : Option Bool := none
  isIncognito : Option Bool := none
  vpnDetection : Option VpnDetection := none
  maxTouchPoints : Option Nat := none
  platform : Option String := none
  isAutomated : Option Bool := none
  isHeadless : Option Bool := none
  isVirtualMachine : Option Bool := none
  cryptoWallets : Option (List String) := none
  socialLogins : Option SocialLogins := none
deriving DecidableEq, Repr

/-- Source lines 207-213: geo data from the server-side IP lookup. -/
structure GeoData where
  city : Option String := none
  region : Option String := none
  country : Option String := none
  isp : Option String := none
  timezone : Option String := none
deriving DecidableEq, Repr

/-- The UserProfile record as the profiler produces it: the fields returned by
generateFallbackProfile / parseAIResponse, plus the aiGenerated/aiSource marks
the pipeline stamps onto provider results. -/
structure UserProfile where
  likelyDeveloper : Bool
  developerScore : Nat
  developerReason : String
  likelyGamer : Bool
  gamerScore : Nat
  gamerReason : String
  likelyDesigner : Bool
  designerScore : Nat
  designerReason : String
  likelyPowerUser : Bool
  powerUserScore : Nat
  powerUserReason : String
  privacyConscious : Bool
  privacyScore : Nat
  privacyReason : String
  deviceTier : String
  estimatedDeviceValue : String
  deviceAge : String
  humanScore : Nat
  botIndicators : List String
  likelyTechSavvy : Bool
  likelyMobile : Bool
  likelyWorkDevice : Bool
  likelyCountry : String
  inferredInterests : List String
  fraudRiskScore : Nat
  fraudIndicators : List String
  personalityTraits : List String
  incomeLevel : String
  ageRange : String
  occupation : String
  aiGenerated : Bool
  aiSource : Option String
deriving DecidableEq, Repr

/-- Helper for the TS pattern `[a && 'x', b && 'y'].filter(Boolean).join(', ')`. -/
def detectedList (items : List (Bool × String)) : String :=
  String.intercalate ", " ((items.filter (·.1)).map (·.2))

/-- Source lines 503-640: the deterministic rule-based fallback profile.
A pure function of the declared client fields (and optional geo country). -/
def generateFallbackProfile (clientInfo : ClientInfo) (geo : Option GeoData) : UserProfile :=
  -- Developer detection
  let developerFonts := ["Fira Code", "JetBrains Mono", "Source Code Pro", "Consolas",
    "Monaco", "Menlo", "Cascadia Code", "Hack"]
  let developerExtensions := ["react devtools", "vue devtools", "redux devtools",
    "angular devtools", "vscode"]
  let hasDeveloperFonts :=
    ((clientInfo.fontsDetected.map
      (fun fs => fs.any (fun f => developerFonts.any (fun df => strContainsCI f df)))).getD false)
  let hasDeveloperExtensions :=
    ((clientInfo.extensionsDetected.map
      (fun es => es.any (fun e => developerExtensions.any (fun de => strContainsCI e de)))).getD false)
  let hasDevToolsOpen := ((clientInfo.advancedBehavior.map (·.devToolsOpen)).getD false)
  let developerScore : Nat := min 100
    ((if hasDeveloperFonts then 40 else 0) + (if hasDeveloperExtensions then 40 else 0) +
     (if hasDevToolsOpen then 30 else 0))
  let likelyDeveloper := decide (developerScore ≥ 40)
  -- Gamer detection
  let hasGamepad := clientInfo.gamepadsSupported.getD false
  let hasGamingGPU :=
    let r := clientInfo.webglRenderer.getD ""
    strContainsCI r "RTX" || strContainsCI r "GTX" || strContainsCI r "Radeon RX" ||
      strContainsCI r "GeForce"
  let hasDiscord := ((clientInfo.installedApps.map (·.contains "discord")).getD false)
  let hasSteam := ((clientInfo.installedApps.map (·.contains "steam")).getD false)
  let gamerScore : Nat := min 100
    ((if hasGamepad then 30 else 0) + (if hasGamingGPU then 30 else 0) +
     (if hasDiscord then 20 else 0) + (if hasSteam then 30 else 0))
  let likelyGamer := decide (gamerScore ≥ 40)
  -- Designer detection
  let hasHighDPI := decide ((clientInfo.devicePixelRatio.getD 1) ≥ 2)
  let hasWideGamut := decide (clientInfo.colorGamut = some "p3" ∨ clientInfo.colorGamut = some "rec2020")
  let hasHDR := clientInfo.hdrSupported.getD false
  let highResolution := decide ((clientInfo.screenWidth.getD 0) ≥ 2560)
  let designerScore : Nat := min 100
    ((if hasHighDPI then 25 else 0) + (if hasWideGamut then 25 else 0) +
     (if hasHDR then 25 else 0) + (if highResolution then 25 else 0))
  let likelyDesigner := decide (designerScore ≥ 50)
  -- Power user detection
  let highCores := decide ((clientInfo.hardwareConcurrency.getD 0) ≥ 8)
  let highRAM := decide ((clientInfo.deviceMemory.getD 0) ≥ 16)
  let multipleLanguages := decide (((clientInfo.languages.map (·.length)).getD 0) ≥ 3)
  let keyboardShortcutsCount : Nat :=
    ((clientInfo.advancedBehavior.bind (·.keyboardShortcutsUsed)).map (·.length)).getD 0
  let usesKeyboardShortcuts := decide (keyboardShortcutsCount > 3)
  let powerUserScore : Nat := min 100
    ((if highCores then 25 else 0) + (if highRAM then 25 else 0) +
     (if multipleLanguages then 20 else 0) + (if usesKeyboardShortcuts then 30 else 0))
  let likelyPowerUser := decide (powerUserScore ≥ 50)
  -- Privacy detection
  let hasAdBlocker := clientInfo.adBlockerDetected.getD false
  let hasDNT := clientInfo.doNotTrack.getD false
  let hasGPC := clientInfo.globalPrivacyControl.getD false
  let isIncognito := clientInfo.isIncognito.getD false
  let hasVPN := ((clientInfo.vpnDetection.map (·.likelyUsingVPN)).getD false)
  let privacyScore : Nat := min 100
    ((if hasAdBlocker then 25 else 0) + (if hasDNT then 15 else 0) +
     (if hasGPC then 20 else 0) + (if isIncognito then 25 else 0) +
     (if hasVPN then 25 else 0))
  let privacyConscious := decide (privacyScore ≥ 40)
  -- Device tier estimation
  let ramGB := clientInfo.deviceMemory.getD 4
  let cores := clientInfo.hardwareConcurrency.getD 4
  let tierPair :=
    if ramGB ≥ 32 ∨ cores ≥ 16 ∨ hasGamingGPU = true then ("premium", "$2,000-$4,000")
    else if ramGB ≥ 16 ∨ cores ≥ 8 then ("high-end", "$1,000-$2,000")
    else if ramGB ≤ 4 ∧ cores ≤ 4 then ("budget", "$200-$500")
    else ("mid-range", "$500-$1,000")
  let deviceTier := tierPair.1
  let estimatedDeviceValue := tierPair.2
  -- Mobile detection
  let platformStr := clientInfo.platform.getD ""
  let likelyMobile := decide ((clientInfo.maxTouchPoints.getD 0) > 1) &&
    (strContainsCI platformStr "Mobile" || strContainsCI platformStr "Android" ||
     strContainsCI platformStr "iPhone" || strContainsCI platformStr "iPad")
  -- Bot detection
  let isAutomated := clientInfo.isAutomated.getD false
  let isHeadless := clientInfo.isHeadless.getD false
  let isVM := clientInfo.isVirtualMachine.getD false
  let botIndicators :=
    (if isAutomated then ["Automation detected"] else []) ++
    (if isHeadless then ["Headless browser"] else []) ++
    (if isVM then ["Virtual machine"] else [])
  let humanScore : Nat := 100 - (if isAutomated then 50 else 0) - (if isHeadless then 30 else 0)
    - (if isVM then 20 else 0)
  -- Inferred interests
  let hasCrypto := ((clientInfo.cryptoWallets.map (fun l => decide (l.length ≠ 0))).getD false)
  let hasSocial :=
    match clientInfo.socialLogins with
    | none => false
    | some sl => sl.google || sl.facebook || sl.twitter || sl.github
  let inferredInterests :=
    (if likelyDeveloper then ["Software Development", "Technology"] else []) ++
    (if likelyGamer then ["Gaming", "Entertainment"] else []) ++
    (if likelyDesigner then ["Design", "Creative Work"] else []) ++
    (if hasCrypto then ["Cryptocurrency", "Finance"] else []) ++
    (if hasSocial then ["Social Media"] else [])
  -- Fraud indicators
  let fraudIndicators :=
    (if isAutomated then ["Automation detected"] else []) ++
    (if hasVPN && isIncognito then ["VPN + Incognito mode"] else []) ++
    (if isHeadless then ["Headless browser"] else [])
  let fraudRiskScore : Nat := min 100 (fraudIndicators.length * 25)
  { likelyDeveloper := likelyDeveloper
    developerScore := developerScore
    developerReason :=
      if likelyDeveloper then
        "Detected: " ++ detectedList [(hasDeveloperFonts, "coding fonts"),
          (hasDeveloperExtensions, "dev extensions"), (hasDevToolsOpen, "DevTools open")]
      else "No strong developer indicators"
    likelyGamer := likelyGamer
    gamerScore := gamerScore
    gamerReason :=
      if likelyGamer then
        "Detected: " ++ detectedList [(hasGamingGPU, "gaming GPU"),
          (hasGamepad, "gamepad support"), (hasDiscord, "Discord"), (hasSteam, "Steam")]
      else "No strong gaming indicators"
    likelyDesigner := likelyDesigner
    designerScore := designerScore
    designerReason :=
      if likelyDesigner then
        "Detected: " ++ detectedList [(hasHighDPI, "high DPI display"),
          (hasWideGamut, "wide color gamut"), (hasHDR, "HDR support"),
          (highResolution, "high resolution")]
      else "No strong designer indicators"
    likelyPowerUser := likelyPowerUser
    powerUserScore := powerUserScore
    powerUserReason :=
      if likelyPowerUser then
        "Detected: " ++ detectedList [(highCores, "high CPU cores"),
          (highRAM, "high RAM"), (usesKeyboardShortcuts, "keyboard shortcuts")]
      else "Average user setup"
    privacyConscious := privacyConscious
    privacyScore := privacyScore
    privacyReason :=
      if privacyConscious then
        "Detected: " ++ detectedList [(hasAdBlocker, "ad blocker"), (hasDNT, "DNT"),
          (hasGPC, "GPC"), (isIncognito, "incognito"), (hasVPN, "VPN")]
      else "Standard privacy settings"
    deviceTier := deviceTier
    estimatedDeviceValue := estimatedDeviceValue
    deviceAge := "recent"
    humanScore := humanScore
    botIndicators := botIndicators
    likelyTechSavvy := likelyDeveloper || likelyPowerUser || privacyConscious
    likelyMobile := likelyMobile
    likelyWorkDevice := (!likelyGamer) && (decide (cores ≥ 8) || decide (ramGB ≥ 16))
    likelyCountry := jsOrStr (geo.bind (·.country)) "Unknown"
    inferredInterests := inferredInterests
    fraudRiskScore := fraudRiskScore
    fraudIndicators := fraudIndicators
    personalityTraits :=
      if likelyDeveloper then ["Analytical", "Detail-oriented"] else ["Curious"]
    incomeLevel :=
      if deviceTier = "premium" then "high"
      else if deviceTier = "high-end" then "medium" else "medium"
    ageRange := "25-45"
    occupation :=
      if likelyDeveloper then "Tech Professional"
      else if likelyDesigner then "Creative Professional" else "Unknown"
    aiGenerated := false
    aiSource := none }

/-- Outcome of one remote provider call on the profile path, as the pipeline
observes it after the fetch and parseAIResponse: the fetch threw (network
error or timeout), the response was non-2xx, the body had no message content,
parseAIResponse returned null, or a validated UserProfile was produced. -/
inductive ProviderOutcome where
  | fetchThrow
  | httpNotOk
  | emptyBody
  | parseFail
  | parsed (p : UserProfile)
deriving DecidableEq, Repr

/-- Bid record of an auction result (source lines 1040-1045). -/
structure AuctionBid where
  bidder : String
  cpm : ℚ
  status : String
  reason : String
deriving DecidableEq, Repr

/-- Value-factor record of an auction result (source lines 1047-1053). -/
structure AuctionValueFactor where
  factor : String
  impact : String
  impactValue : ℚ
  emoji : String
  description : String
deriving DecidableEq, Repr

/-- Auction result record (source lines 1055-1059). -/
structure AIAuctionResult where
  bids : List AuctionBid
  valueFactors : List AuctionValueFactor
  source : String
deriving DecidableEq, Repr

/-- Outcome of one remote provider call on the auction path. -/
inductive AuctionOutcome where
  | fetchThrow
  | httpNotOk
  | emptyBody
  | parseFail
  | parsed (r : AIAuctionResult)
deriving DecidableEq, Repr

/-- Whether the two provider credentials are configured (truthiness of
GROK_API_KEY and OPENROUTER_API_KEY). -/
structure Config where
  grokConfigured : Bool
  openrouterConfigured : Bool
deriving DecidableEq, Repr

/-- The external world for a run: whether a redis connect attempt on each of
the two connections succeeds, whether redis get/set commands throw, and what
each remote provider produces when called.  sAddThrowsAt / sCardThrowsAt give
the tracking-command outcome per (1-based) retry attempt. -/
structure World where
  redisUp : Bool
  trackingUp : Bool
  cacheGetThrows : Bool
  cacheSetThrows : Bool
  grok : ProviderOutcome
  mimo : ProviderOutcome
  grokAuction : AuctionOutcome
  mimoAuction : AuctionOutcome
  sAddThrowsAt : Nat → Bool
  sCardThrowsAt : Nat → Bool

/-- All mutable module state of ai-profiler.ts plus the contents of the
external store: the two connection states (`redis`, `trackingRedis`), the
rate-limit map, the redis-held profile cache, auction cache and visitor set,
and the instrumentation counters/logs. -/
structure ServerState where
  redis : ConnState
  trackingRedis : ConnState
  userRateLimits : RLMap
  profileStore : List (String × UserProfile)
  auctionStore : List (String × AIAuctionResult)
  visitors : List String
  grokCalls : Nat
  mimoCalls : Nat
  profileWrites : List (String × UserProfile)
  auctionWrites : List (String × AIAuctionResult)
deriving DecidableEq

/-- Lookup in a redis keyspace model. -/
def storeLookup {α : Type} : List (String × α) → String → Option α
  | [], _ => none
  | (k, v) :: rest, key => if k = key then some v else storeLookup rest key

/-- setEx in a redis keyspace model (replace the first binding or append). -/
def storeSet {α : Type} : List (String × α) → String → α → List (String × α)
  | [], key, v => [(key, v)]
  | (k, w) :: rest, key, v =>
    if k = key then (key, v) :: rest else (k, w) :: storeSet rest key v

/-- Source lines 64-94: acquire the cache redis connection. -/
def getRedis (now : Nat) (w : World) (s : ServerState) : Bool × ServerState :=
  let r := acquireConn now w.redisUp s.redis
  (r.1, { s with redis := r.2 })

/-- Source lines 97-126: acquire the tracking redis connection (fully
independent state from the cache connection). -/
def getTrackingRedis (now : Nat) (w : World) (s : ServerState) : Bool × ServerState :=
  let r := acquireConn now w.trackingUp s.trackingRedis
  (r.1, { s with trackingRedis := r.2 })

/-- Source lines 174-189: read a cached profile.  A missing connection, a
thrown redis command and an absent key are all observed as a miss (null). -/
def getCachedProfile (now : Nat) (w : World) (cacheKey : String) (s : ServerState) :
    Option UserProfile × ServerState :=
  let (avail, s) := getRedis now w s
  if ¬ avail then (none, s)
  else if w.cacheGetThrows then (none, s)
  else (storeLookup s.profileStore cacheKey, s)

/-- Source lines 194-204: write a profile through to the cache.  The write is
best-effort: a missing connection or a thrown setEx is swallowed.  The
invocation itself is logged in profileWrites. -/
def cacheProfile (now : Nat) (w : World) (cacheKey : String) (profile : UserProfile)
    (s : ServerState) : ServerState :=
  let s := { s with profileWrites := s.profileWrites ++ [(cacheKey, profile)] }
  let (avail, s) := getRedis now w s
  if ¬ avail then s
  else if w.cacheSetThrows then s
  else { s with profileStore := storeSet s.profileStore cacheKey profile }

/-- Source lines 795-848: the helper calling MiMo via OpenRouter on the
profile path.  Provider status codes and thrown-error texts are abstracted to
fixed representative strings; the static error strings are the source's.
Returns ((profile, error), state); a fetch is issued (mimoCalls incremented)
exactly when the key is configured. -/
def tryMiMo (cfg : Config) (w : World) (s : ServerState) :
    (Option UserProfile × Option String) × ServerState :=
  if ¬ cfg.openrouterConfigured then ((none, some "OpenRouter not configured"), s)
  else
    let s := { s with mimoCalls := s.mimoCalls + 1 }
    match w.mimo with
    | .fetchThrow => ((none, some "MiMo fetch error"), s)
    | .httpNotOk => ((none, some "MiMo API error"), s)
    | .emptyBody => ((none, some "Empty MiMo response"), s)
    | .parseFail => ((none, some "Failed to parse MiMo response"), s)
    | .parsed p =>
      ((some { p with aiGenerated := true, aiSource := some "mimo" }, none), s)

/-- Response record of generateAIProfile (source lines 761-765). -/
structure ProfileResponse where
  profile : Option UserProfile
  source : String
  error : Option String
deriving DecidableEq

/-- Source lines 761-947: the profile Fallback Chain.  Control flow, in the
source's order: derive the key (missing identity fields default to
"unknown"), cache lookup, no-provider gate, per-user rate-limit gate, Grok
attempt, MiMo attempt, rule-based fallback; provider successes are
write-through cached and tagged "ai". -/
def generateAIProfile (now : Nat) (cfg : Config) (w : World) (clientInfo : ClientInfo)
    (geo : Option GeoData) (s : ServerState) : ProfileResponse × ServerState :=
  let fingerprintId := jsOrStr clientInfo.fingerprintId "unknown"
  let crossBrowserId := jsOrStr clientInfo.crossBrowserId "unknown"
  let cacheKey := getCacheKey fingerprintId crossBrowserId
  let (cached, s) := getCachedProfile now w cacheKey s
  match cached with
  | some p => ({ profile := some p, source := "cache", error := none }, s)
  | none =>
    if ¬ cfg.grokConfigured ∧ ¬ cfg.openrouterConfigured then
      ({ profile := some (generateFallbackProfile clientInfo geo), source := "fallback",
         error := some "No AI configured" }, s)
    else
      let userId := fingerprintId ++ ":" ++ crossBrowserId
      let (allowed, m) := checkRateLimit now userId s.userRateLimits
      let s := { s with userRateLimits := m }
      if ¬ allowed then
        ({ profile := some (generateFallbackProfile clientInfo geo), source := "fallback",
           error := some "Rate limited" }, s)
      else if ¬ cfg.grokConfigured then
        -- Grok not configured: go straight to MiMo
        let ((mp, merr), s) := tryMiMo cfg w s
        match mp with
        | some p =>
          let s := cacheProfile now w cacheKey p s
          ({ profile := some p, source := "ai", error := none }, s)
        | none =>
          ({ profile := some (generateFallbackProfile clientInfo geo), source := "fallback",
             error := merr }, s)
      else
        -- Try Grok first (primary AI); the fetch is issued in every outcome
        let s := { s with grokCalls := s.grokCalls + 1 }
        match w.grok with
        | .parsed p0 =>
          let p := { p0 with aiGenerated := true, aiSource := some "grok" }
          let s := cacheProfile now w cacheKey p s
          ({ profile := some p, source := "ai", error := none }, s)
        | .httpNotOk =>
          let ((mp, merr), s) := tryMiMo cfg w s
          match mp with
          | some p =>
            let s := cacheProfile now w cacheKey p s
            ({ profile := some p, source := "ai", error := none }, s)
          | none =>
            ({ profile := some (generateFallbackProfile clientInfo geo), source := "fallback",
               error := some ("Grok: HTTP error, MiMo: " ++ merr.getD "") }, s)
        | .emptyBody =>
          let ((mp, _), s) := tryMiMo cfg w s
          match mp with
          | some p =>
            let s := cacheProfile now w cacheKey p s
            ({ profile := some p, source := "ai", error := none }, s)
          | none =>
            ({ profile := some (generateFallbackProfile clientInfo geo), source := "fallback",
               error := some "Empty Grok response" }, s)
        | .parseFail =>
          let ((mp, _), s) := tryMiMo cfg w s
          match mp with
          | some p =>
            let s := cacheProfile now w cacheKey p s
            ({ profile := some p, source := "ai", error := none }, s)
          | none =>
            ({ profile := some (generateFallbackProfile clientInfo geo), source := "fallback",
               error := some "Failed to parse Grok response" }, s)
        | .fetchThrow =>
          let ((mp, merr), s) := tryMiMo cfg w s
          match mp with
          | some p =>
            let s := cacheProfile now w cacheKey p s
            ({ profile := some p, source := "ai", error := none }, s)
          | none =>
            ({ profile := some (generateFallbackProfile clientInfo geo), source := "fallback",
               error := some ("Grok: fetch error, MiMo: " ++ merr.getD "") }, s)

/-- Source line 964: the redis set key for unique visitors (kept for record;
the model's visitor set is the contents of that one key). -/
def UNIQUE_VISITORS_KEY : String := "yourinfo:unique_visitors"

/-- Retry loop body of trackUniqueVisitor (source lines 974-1001).  `attempt`
is the 1-based attempt number (the index into the per-attempt throw oracle);
`remaining` the attempts left, so the loop starts at (1, maxRetries).  An
unavailable connection at the last attempt returns false; a thrown sAdd
forces the tracking client closed and retries; a successful sAdd answers
whether the member was newly inserted. -/
def trackUniqueVisitorGo (now : Nat) (w : World) (visitorKey : String) :
    Nat → Nat → ServerState → Bool × ServerState
  | _, 0, s => (false, s)
  | attempt, remaining + 1, s =>
    let (avail, s) := getTrackingRedis now w s
    if ¬ avail then
      if remaining = 0 then (false, s)
      else trackUniqueVisitorGo now w visitorKey (attempt + 1) remaining s
    else if w.sAddThrowsAt attempt then
      let s := { s with trackingRedis := { s.trackingRedis with clientOpen := false } }
      trackUniqueVisitorGo now w visitorKey (attempt + 1) remaining s
    else if s.visitors.contains visitorKey then
      (false, s)
    else
      (true, { s with visitors := visitorKey :: s.visitors })

/-- Source lines 970-1003: record a visitor in the tracking set, with up to 3
retry attempts.  Returns whether this call performed the first-ever insert. -/
def trackUniqueVisitor (now : Nat) (w : World) (fingerprintId crossBrowserId : String)
    (s : ServerState) : Bool × ServerState :=
  trackUniqueVisitorGo now w (fingerprintId ++ ":" ++ crossBrowserId) 1 3 s

/-- Retry loop body of getTotalUniqueVisitors (source lines 1011-1031): like
the insert loop but with 2 attempts, no client reset on a thrown command, and
0 on exhaustion. -/
def getTotalUniqueVisitorsGo (now : Nat) (w : World) :
    Nat → Nat → ServerState → Nat × ServerState
  | _, 0, s => (0, s)
  | attempt, remaining + 1, s =>
    let (avail, s) := getTrackingRedis now w s
    if ¬ avail then
      if remaining = 0 then (0, s)
      else getTotalUniqueVisitorsGo now w (attempt + 1) remaining s
    else if w.sCardThrowsAt attempt then
      getTotalUniqueVisitorsGo now w (attempt + 1) remaining s
    else
      (s.visitors.length, s)

/-- Source lines 1008-1033: the unique-visitor total (sCard with retries). -/
def getTotalUniqueVisitors (now : Nat) (w : World) (s : ServerState) : Nat × ServerState :=
  getTotalUniqueVisitorsGo now w 1 2 s

/-- The base64 alphabet, indexed 0-63. -/
def base64Alphabet : List Char :=
  "ABCDEFGHIJKLMNOPQRSTUVWXYZabcdefghijklmnopqrstuvwxyz0123456789+/".toList

/-- Character of one 6-bit value. -/
def b64Char (i : Nat) : Char := base64Alphabet.getD i 'A'

/-- Standard base64 of a byte sequence, processed in 3-byte groups with '='
padding, exactly as Buffer.toString('base64'). -/
def b64Encode : List Nat → List Char
  | b0 :: b1 :: b2 :: rest =>
    b64Char (b0 / 4) :: b64Char ((b0 % 4) * 16 + b1 / 16) ::
      b64Char ((b1 % 16) * 4 + b2 / 64) :: b64Char (b2 % 64) :: b64Encode rest
  | [b0, b1] =>
    [b64Char (b0 / 4), b64Char ((b0 % 4) * 16 + b1 / 16), b64Char ((b1 % 16) * 4), '=']
  | [b0] =>
    [b64Char (b0 / 4), b64Char ((b0 % 4) * 16), '=', '=']
  | [] => []

/-- Source line 1188: the "profile hash" is just the first 32 base64
characters of the summary's UTF-8 bytes (profile summaries are modelled as
their byte sequences). -/
def profileHash (profileSummary : List Nat) : String :=
  String.mk ((b64Encode profileSummary).take 32)

/-- Source lines 1188-1189: auction cache key derivation. -/
def auctionCacheKey (profileSummary : List Nat) (countryCode : String) : String :=
  "yourinfo:auction:" ++ profileHash profileSummary ++ ":" ++ countryCode

/-- Source lines 1154-1168: read a cached auction result; connection loss,
thrown commands and absent keys all read as a miss. -/
def getAuctionCache (now : Nat) (w : World) (cacheKey : String) (s : ServerState) :
    Option AIAuctionResult × ServerState :=
  let (avail, s) := getRedis now w s
  if ¬ avail then (none, s)
  else if w.cacheGetThrows then (none, s)
  else (storeLookup s.auctionStore cacheKey, s)

/-- Source lines 1170-1180: best-effort write of an auction result, with the
invocation logged in auctionWrites. -/
def setAuctionCache (now : Nat) (w : World) (cacheKey : String) (result : AIAuctionResult)
    (s : ServerState) : ServerState :=
  let s := { s with auctionWrites := s.auctionWrites ++ [(cacheKey, result)] }
  let (avail, s) := getRedis now w s
  if ¬ avail then s
  else if w.cacheSetThrows then s
  else { s with auctionStore := storeSet s.auctionStore cacheKey result }

/-- Source lines 1201-1243: the MiMo helper on the auction path.  A fetch is
issued exactly when the OpenRouter key is configured; a parsed result gets
source "mimo". -/
def tryMiMoAuction (cfg : Config) (w : World) (s : ServerState) :
    Option AIAuctionResult × ServerState :=
  if ¬ cfg.openrouterConfigured then (none, s)
  else
    let s := { s with mimoCalls := s.mimoCalls + 1 }
    match w.mimoAuction with
    | .parsed r => (some { r with source := "mimo" }, s)
    | _ => (none, s)

/-- Source lines 1182-1300: the auction pipeline.  Control flow: derive the
cache key from the first 32 base64 characters of the summary plus the country
code, cache lookup, Grok attempt (when configured), MiMo attempt, and an
empty "fallback" result signalling the caller to compute its own estimate.
There is no rate-limit gate on this path. -/
def generateAIAuction (now : Nat) (cfg : Config) (w : World) (profileSummary : List Nat)
    (country countryCode : String) (s : ServerState) : AIAuctionResult × ServerState :=
  let cacheKey := auctionCacheKey profileSummary countryCode
  let (cached, s) := getAuctionCache now w cacheKey s
  match cached with
  | some r => (r, s)
  | none =>
    let step2 := fun (s : ServerState) =>
      let (mimoResult, s) := tryMiMoAuction cfg w s
      match mimoResult with
      | some r =>
        let s := setAuctionCache now w cacheKey r s
        (r, s)
      | none =>
        (({ bids := [], valueFactors := [], source := "fallback" } : AIAuctionResult), s)
    if cfg.grokConfigured then
      let s := { s with grokCalls := s.grokCalls + 1 }
      match w.grokAuction with
      | .parsed r0 =>
        let r := { r0 with source := "grok" }
        let s := setAuctionCache now w cacheKey r s
        (r, s)
      | _ => step2 s
    else
      step2 s

/-- Fold a sequence of (now, userId) calls through the rate limiter. -/
def runRateLimit : List (Nat × String) → RLMap → RLMap
  | [], m => m
  | (t, u) :: rest, m => runRateLimit rest (checkRateLimit t u m).2

/-- Well-formedness of the rate-limit map: every window holds a count between
1 and the configured maximum. -/
def rlWF (m : RLMap) : Prop := ∀ e ∈ m, 1 ≤ e.2.1 ∧ e.2.1 ≤ RATE_LIMIT_MAX

/-- Repeat trackUniqueVisitor n times for the same visitor, collecting the
returned booleans. -/
def repeatTrack (now : Nat) (w : World) (fingerprintId crossBrowserId : String) :
    Nat → ServerState → List Bool × ServerState
  | 0, s => ([], s)
  | n + 1, s =>
    let (b, s) := trackUniqueVisitor now w fingerprintId crossBrowserId s
    let (bs, s) := repeatTrack now w fingerprintId crossBrowserId n s
    (b :: bs, s)

/-- A concrete profile used to instantiate provider outcomes in witnesses. -/
def sampleProfile : UserProfile :=
  { likelyDeveloper := true, developerScore := 80, developerReason := "r"
    likelyGamer := false, gamerScore := 10, gamerReason := "r"
    likelyDesigner := false, designerScore := 5, designerReason := "r"
    likelyPowerUser := true, powerUserScore := 60, powerUserReason := "r"
    privacyConscious := false, privacyScore := 20, privacyReason := "r"
    deviceTier := "high-end", estimatedDeviceValue := "$1,000-$2,000"
    deviceAge := "recent", humanScore := 95, botIndicators := []
    likelyTechSavvy := true, likelyMobile := false, likelyWorkDevice := true
    likelyCountry := "Portugal", inferredInterests := ["Technology"]
    fraudRiskScore := 0, fraudIndicators := [], personalityTraits := ["Analytical"]
    incomeLevel := "medium", ageRange := "25-35", occupation := "Tech Professional"
    aiGenerated := false, aiSource := none }

/-- A concrete auction result used to instantiate provider outcomes. -/
def sampleAuction : AIAuctionResult :=
  { bids := [{ bidder := "Google Ads", cpm := 29 / 20, status := "bid", reason := "targeting" }]
    valueFactors := [{ factor := "Premium Device", impact := "+50%", impactValue := 3 / 2,
                       emoji := "", description := "high purchasing power" }]
    source := "grok" }

/-- The world with every dependency healthy. -/
def w0 : World :=
  { redisUp := true, trackingUp := true, cacheGetThrows := false, cacheSetThrows := false
    grok := .parsed sampleProfile, mimo := .parsed sampleProfile
    grokAuction := .parsed sampleAuction, mimoAuction := .parsed sampleAuction
    sAddThrowsAt := fun _ => false, sCardThrowsAt := fun _ => false }

/-- The world with the store unreachable but both providers healthy. -/
def wStoreDown : World := { w0 with redisUp := false, trackingUp := false }

/-- The initial server state (module load). -/
def s0 : ServerState :=
  { redis := ConnState.fresh, trackingRedis := ConnState.fresh, userRateLimits := []
    profileStore := [], auctionStore := [], visitors := [], grokCalls := 0, mimoCalls := 0
    profileWrites := [], auctionWrites := [] }

/-- A state whose two connections both recorded an error at time 999. -/
def sCooldown : ServerState :=
  { s0 with
    redis := { clientOpen := false, connecting := false, lastError := 999, connectAttempts := 5 }
    trackingRedis :=
      { clientOpen := false, connecting := false, lastError := 999, connectAttempts := 7 } }

/-- A state whose connections are open and healthy. -/
def sOpen : ServerState :=
  { s0 with
    redis := { clientOpen := true, connecting := false, lastError := 0, connectAttempts := 1 }
    trackingRedis :=
      { clientOpen := true, connecting := false, lastError := 0, connectAttempts := 1 } }

/-- A state whose only rate-limit window is already at the maximum. -/
def sRateLimited : ServerState :=
  { sOpen with userRateLimits := [("u:v", (2, 1000000000))] }

-- ======================================================================
-- Helper lemmas
-- ======================================================================

theorem acquireConn_open {c : ConnState} (now : Nat) (connectOk : Bool)
    (h1 : c.clientOpen = true) (h2 : c.lastError = 0) :
    acquireConn now connectOk c = (true, c) := by
  simp [acquireConn, h1, h2]

theorem acquireConn_cooldown {c : ConnState} (now : Nat) (connectOk : Bool)
    (h1 : 0 < c.lastError) (h2 : now - c.lastError < REDIS_BACKOFF_MS) :
    acquireConn now connectOk c = (false, c) := by
  simp [acquireConn, h1, h2]

theorem acquireConn_down {c : ConnState} (now : Nat)
    (h1 : c.clientOpen = false) (h2 : c.connecting = false) :
    (acquireConn now false c).1 = false ∧ (acquireConn now false c).2.clientOpen = false ∧
      (acquireConn now false c).2.connecting = false := by
  simp only [acquireConn, h1, h2]
  split <;> simp [h1, h2]

theorem getRedis_open {s : ServerState} (now : Nat) (w : World)
    (h1 : s.redis.clientOpen = true) (h2 : s.redis.lastError = 0) :
    getRedis now w s = (true, s) := by
  simp [getRedis, acquireConn_open now w.redisUp h1 h2]

theorem getTrackingRedis_open {s : ServerState} (now : Nat) (w : World)
    (h1 : s.trackingRedis.clientOpen = true) (h2 : s.trackingRedis.lastError = 0) :
    getTrackingRedis now w s = (true, s) := by
  simp [getTrackingRedis, acquireConn_open now w.trackingUp h1 h2]

theorem storeLookup_storeSet_self {α : Type} (st : List (String × α)) (k : String) (v : α) :
    storeLookup (storeSet st k v) k = some v := by
  induction st with
  | nil => simp [storeSet, storeLookup]
  | cons e rest ih =>
    by_cases h : e.1 = k <;> simp [storeSet, storeLookup, h, ih]

theorem rlLookup_rlSet_self (m : RLMap) (u : String) (v : Nat × Nat) :
    rlLookup (rlSet m u v) u = some v := by
  induction m with
  | nil => simp [rlSet, rlLookup]
  | cons e rest ih =>
    by_cases h : e.1 = u <;> simp [rlSet, rlLookup, h, ih]

theorem rlWF_rlSet : ∀ (m : RLMap), rlWF m → ∀ (u : String) (v : Nat × Nat),
    1 ≤ v.1 → v.1 ≤ RATE_LIMIT_MAX → rlWF (rlSet m u v)
  | [], _, u, v, h1, h2 => by
    intro e he
    simp [rlSet] at he
    subst he
    exact ⟨h1, h2⟩
  | (k, kv) :: rest, hm, u, v, h1, h2 => by
    intro e he
    by_cases hk : k = u
    · simp only [rlSet, if_pos hk] at he
      rcases List.mem_cons.mp he with he | he
      · subst he; exact ⟨h1, h2⟩
      · exact hm e (List.mem_cons_of_mem _ he)
    · simp only [rlSet, if_neg hk] at he
      rcases List.mem_cons.mp he with he | he
      · subst he; exact hm (k, kv) (List.mem_cons_self _ _)
      · exact rlWF_rlSet rest (fun x hx => hm x (List.mem_cons_of_mem _ hx)) u v h1 h2 e he

theorem rlWF_checkRateLimit {m : RLMap} (now : Nat) (u : String) (hm : rlWF m) :
    rlWF (checkRateLimit now u m).2 := by
  unfold checkRateLimit
  cases hl : rlLookup m u with
  | none => exact rlWF_rlSet m hm u _ (by norm_num) (by norm_num [RATE_LIMIT_MAX])
  | some cr =>
    obtain ⟨c, r⟩ := cr
    by_cases h1 : now > r
    · simp only [h1, if_true]
      exact rlWF_rlSet m hm u _ (by norm_num) (by norm_num [RATE_LIMIT_MAX])
    · by_cases h2 : c ≥ RATE_LIMIT_MAX
      · simp only [h1, h2, if_false, if_true]
        exact hm
      · simp only [h1, h2, if_false]
        refine rlWF_rlSet m hm u _ (by omega) ?_
        simp only [RATE_LIMIT_MAX] at h2 ⊢
        omega

theorem rlWF_runRateLimit {m : RLMap} (calls : List (Nat × String)) (hm : rlWF m) :
    rlWF (runRateLimit calls m) := by
  induction calls generalizing m with
  | nil => exact hm
  | cons c rest ih =>
    obtain ⟨t, u⟩ := c
    exact ih (rlWF_checkRateLimit t u hm)

-- ======================================================================
-- Claim theorems
-- ======================================================================

/-- C1: for every client-info request and every combination of primary
provider up/down, secondary provider up/down and store up/down (all of which
are coordinates of the universally quantified world and configuration),
generateAIProfile returns a non-null profile together with a provenance tag
drawn from cache/ai/fallback; being a total function of its arguments, no
exit path propagates an error outward. -/
theorem c1_always_a_result (now : Nat) (cfg : Config) (w : World) (clientInfo : ClientInfo)
    (geo : Option GeoData) (s : ServerState) :
    (generateAIProfile now cfg w clientInfo geo s).1.profile.isSome = true ∧
      ((generateAIProfile now cfg w clientInfo geo s).1.source = "cache" ∨
       (generateAIProfile now cfg w clientInfo geo s).1.source = "ai" ∨
       (generateAIProfile now cfg w clientInfo geo s).1.source = "fallback") := by
  simp only [generateAIProfile]
  repeat' split
  all_goals simp

/-- C5: if a store connection's most recent error timestamp is within the
5-second backoff window, getRedis and getTrackingRedis return Unavailable
(null) with the state unchanged — in particular the connection-attempt
counter does not increase, so no new connection is attempted. -/
theorem c5_cooldown_short_circuit (now : Nat) (w : World) (s : ServerState)
    (h1 : 0 < s.redis.lastError) (h2 : now - s.redis.lastError < REDIS_BACKOFF_MS)
    (h3 : 0 < s.trackingRedis.lastError)
    (h4 : now - s.trackingRedis.lastError < REDIS_BACKOFF_MS) :
    getRedis now w s = (false, s) ∧ getTrackingRedis now w s = (false, s) := by
  constructor
  · simp [getRedis, acquireConn_cooldown now w.redisUp h1 h2]
  · simp [getTrackingRedis, acquireConn_cooldown now w.trackingUp h3 h4]

/-- C5 witness: a concrete cooldown state at time 1000 after an error at 999. -/
theorem c5_witness :
    getRedis 1000 w0 sCooldown = (false, sCooldown) ∧
      getTrackingRedis 1000 w0 sCooldown = (false, sCooldown) :=
  c5_cooldown_short_circuit 1000 w0 sCooldown (by decide) (by decide) (by decide) (by decide)

/-- C7: for every caller and any sequence of checkRateLimit calls starting
from a well-formed map (in particular from the empty initial map), every
window entry keeps a count between 1 and RATE_LIMIT_MAX = 2; and once
now > windowResetAt, the call replaces the window wholesale with count 1 and
reset time now + RATE_LIMIT_WINDOW — never a decrement — and that first call
of the new window is allowed (returns true). -/
theorem c7_rate_limit_window_invariant (calls : List (Nat × String)) (m : RLMap)
    (u : String) (now count resetTime : Nat) (hwf : rlWF m) :
    rlWF (runRateLimit calls m) ∧
      (rlLookup m u = some (count, resetTime) → now > resetTime →
        checkRateLimit now u m = (true, rlSet m u (1, now + RATE_LIMIT_WINDOW))) := by
  refine ⟨rlWF_runRateLimit calls hwf, fun hl hn => ?_⟩
  simp [checkRateLimit, hl, hn]

/-- C7 witness: a concrete burst of four calls for one caller, and a concrete
expired window being replaced (count 2, reset 50, called at 51). -/
theorem c7_witness :
    rlWF (runRateLimit [(0, "a"), (1, "a"), (2, "a"), (61000, "a")] [("b", (2, 50))]) ∧
      (rlLookup [("b", (2, 50))] "b" = some (2, 50) → 51 > 50 →
        checkRateLimit 51 "b" [("b", (2, 50))] =
          (true, rlSet [("b", (2, 50))] "b" (1, 51 + RATE_LIMIT_WINDOW))) :=
  c7_rate_limit_window_invariant [(0, "a"), (1, "a"), (2, "a"), (61000, "a")]
    [("b", (2, 50))] "b" 51 2 50 (by unfold rlWF; decide)

/-- C3 counterexample: with REDIS_URL absent from the environment the source
falls back to the literal default URL (line 31), and connection acquisition
on the fresh module state still performs a connection attempt on both
connections — the attempt counters increase — and, with that default store
reachable, a profile is in fact cached.  So absence of REDIS_URL does not
disable caching/tracking and does not suppress connection attempts. -/
theorem c3_counterexample :
    REDIS_URL none = "redis://localhost:6379" ∧
      (getRedis 0 w0 s0).2.redis.connectAttempts = s0.redis.connectAttempts + 1 ∧
      (getTrackingRedis 0 w0 s0).2.trackingRedis.connectAttempts
        = s0.trackingRedis.connectAttempts + 1 ∧
      storeLookup (generateAIProfile 0 ⟨true, true⟩ w0 {} none s0).2.profileStore
          (getCacheKey "unknown" "unknown")
        = some { sampleProfile with aiGenerated := true, aiSource := some "grok" } := by
  refine ⟨rfl, by decide, by decide, by decide⟩

/-- C3 amended: when REDIS_URL is absent the URL defaults to
redis://localhost:6379 and connection acquisition still attempts to connect
to that default (the attempt counter increases on a fresh connection);
caching is effectively disabled only when those attempts fail, and in that
case (with no providers configured) the pipeline still returns a complete
result end-to-end via the deterministic fallback. -/
theorem c3_amended_default_url (now : Nat) (w : World) (clientInfo : ClientInfo)
    (geo : Option GeoData) (s : ServerState)
    (hfresh : s.redis = ConnState.fresh) (hdown : w.redisUp = false) :
    REDIS_URL none = "redis://localhost:6379" ∧
      (getRedis now w s).2.redis.connectAttempts = s.redis.connectAttempts + 1 ∧
      (generateAIProfile now ⟨false, false⟩ w clientInfo geo s).1 =
        { profile := some (generateFallbackProfile clientInfo geo), source := "fallback",
          error := some "No AI configured" } := by
  have hacq : acquireConn now w.redisUp s.redis =
      (false, { clientOpen := false, connecting := false, lastError := now,
                connectAttempts := s.redis.connectAttempts + 1 }) := by
    rw [hfresh, hdown]
    simp [acquireConn, ConnState.fresh]
  refine ⟨rfl, ?_, ?_⟩
  · simp [getRedis, hacq]
  · simp only [generateAIProfile, getCachedProfile, getRedis, hacq]
    simp

/-- C3 amended witness: the fresh state with the default store unreachable
and no providers configured. -/
theorem c3_amended_witness :
    REDIS_URL none = "redis://localhost:6379" ∧
      (getRedis 7 wStoreDown s0).2.redis.connectAttempts = s0.redis.connectAttempts + 1 ∧
      (generateAIProfile 7 ⟨false, false⟩ wStoreDown {} none s0).1 =
        { profile := some (generateFallbackProfile {} none), source := "fallback",
          error := some "No AI configured" } :=
  c3_amended_default_url 7 wStoreDown {} none s0 rfl rfl

theorem getRedis_spec (now : Nat) (w : World) (s : ServerState) :
    ∃ avail c', getRedis now w s = (avail, { s with redis := c' }) :=
  ⟨(acquireConn now w.redisUp s.redis).1, (acquireConn now w.redisUp s.redis).2, rfl⟩

theorem getCachedProfile_spec (now : Nat) (w : World) (k : String) (s : ServerState) :
    ∃ res c', getCachedProfile now w k s = (res, { s with redis := c' }) := by
  obtain ⟨avail, c', hg⟩ := getRedis_spec now w s
  unfold getCachedProfile
  rw [hg]
  cases avail
  · exact ⟨none, c', by simp⟩
  · by_cases ht : w.cacheGetThrows
    · exact ⟨none, c', by simp [ht]⟩
    · exact ⟨storeLookup s.profileStore k, c', by simp [ht]⟩

theorem cacheProfile_spec (now : Nat) (w : World) (k : String) (p : UserProfile)
    (s : ServerState) :
    ∃ c' st', cacheProfile now w k p s =
      { s with redis := c', profileStore := st',
               profileWrites := s.profileWrites ++ [(k, p)] } := by
  obtain ⟨avail, c', hg⟩ :=
    getRedis_spec now w { s with profileWrites := s.profileWrites ++ [(k, p)] }
  simp only [cacheProfile]
  rw [hg]
  cases avail
  · exact ⟨c', s.profileStore, by simp⟩
  · by_cases ht : w.cacheSetThrows
    · exact ⟨c', s.profileStore, by simp [ht]⟩
    · exact ⟨c', storeSet s.profileStore k p, by simp [ht]⟩

theorem tryMiMo_spec (cfg : Config) (w : World) (s : ServerState) :
    ∃ mp me n, tryMiMo cfg w s = ((mp, me), { s with mimoCalls := n }) := by
  unfold tryMiMo
  by_cases hc : cfg.openrouterConfigured
  · cases hw : w.mimo
    · exact ⟨none, some "MiMo fetch error", s.mimoCalls + 1, by simp [hc, hw]⟩
    · exact ⟨none, some "MiMo API error", s.mimoCalls + 1, by simp [hc, hw]⟩
    · exact ⟨none, some "Empty MiMo response", s.mimoCalls + 1, by simp [hc, hw]⟩
    · exact ⟨none, some "Failed to parse MiMo response", s.mimoCalls + 1, by simp [hc, hw]⟩
    · next p =>
        exact ⟨some { p with aiGenerated := true, aiSource := some "mimo" }, none,
          s.mimoCalls + 1, by simp [hc, hw]⟩
  · exact ⟨none, some "OpenRouter not configured", s.mimoCalls, by simp [hc]⟩

theorem generateAIProfile_cases (now : Nat) (cfg : Config) (w : World) (ci : ClientInfo)
    (geo : Option GeoData) (s : ServerState) :
    (∃ p c', generateAIProfile now cfg w ci geo s =
        ({ profile := some p, source := "cache", error := none }, { s with redis := c' })) ∨
    (∃ p e c' rl gk mk st',
        generateAIProfile now cfg w ci geo s =
          ({ profile := some p, source := "ai", error := e },
           { s with redis := c', userRateLimits := rl, grokCalls := gk, mimoCalls := mk,
                    profileStore := st',
                    profileWrites := s.profileWrites ++
                      [(getCacheKey (jsOrStr ci.fingerprintId "unknown")
                          (jsOrStr ci.crossBrowserId "unknown"), p)] })) ∨
    (∃ e c' rl gk mk,
        generateAIProfile now cfg w ci geo s =
          ({ profile := some (generateFallbackProfile ci geo), source := "fallback",
             error := e },
           { s with redis := c', userRateLimits := rl, grokCalls := gk, mimoCalls := mk })) := by
  obtain ⟨res, c', hgc⟩ := getCachedProfile_spec now w
    (getCacheKey (jsOrStr ci.fingerprintId "unknown") (jsOrStr ci.crossBrowserId "unknown")) s
  simp only [generateAIProfile]
  rw [hgc]
  cases res with
  | some p => exact Or.inl ⟨p, c', rfl⟩
  | none =>
    by_cases hgate : (¬ cfg.grokConfigured = true ∧ ¬ cfg.openrouterConfigured = true)
    · refine Or.inr (Or.inr ⟨some "No AI configured", c', s.userRateLimits, s.grokCalls,
        s.mimoCalls, ?_⟩)
      simp [hgate]
    · rcases hcr : checkRateLimit now
          (jsOrStr ci.fingerprintId "unknown" ++ ":" ++ jsOrStr ci.crossBrowserId "unknown")
          s.userRateLimits with ⟨allowed, m⟩
      simp only [if_neg hgate]
      cases allowed with
      | false =>
        refine Or.inr (Or.inr ⟨some "Rate limited", c', m, s.grokCalls, s.mimoCalls, ?_⟩)
        simp
      | true =>
        rw [if_neg (by simp : ¬ (¬ true = true))]
        by_cases hgk : cfg.grokConfigured = true
        · rw [if_neg (by simp [hgk])]
          cases hw : w.grok with
          | parsed p0 =>
            obtain ⟨c2, st2, hcp⟩ := cacheProfile_spec now w
              (getCacheKey (jsOrStr ci.fingerprintId "unknown")
                (jsOrStr ci.crossBrowserId "unknown"))
              { p0 with aiGenerated := true, aiSource := some "grok" }
              { s with redis := c', userRateLimits := m, grokCalls := s.grokCalls + 1 }
            simp only []
            rw [hcp]
            exact Or.inr (Or.inl ⟨{ p0 with aiGenerated := true, aiSource := some "grok" },
              none, c2, m, s.grokCalls + 1, s.mimoCalls, st2, rfl⟩)
          | fetchThrow =>
            simp only []
            obtain ⟨mp, me, n, hmm⟩ := tryMiMo_spec cfg w
              { s with redis := c', userRateLimits := m, grokCalls := s.grokCalls + 1 }
            rw [hmm]
            cases mp with
            | some p =>
              simp only []
              obtain ⟨c2, st2, hcp⟩ := cacheProfile_spec now w
                (getCacheKey (jsOrStr ci.fingerprintId "unknown")
                  (jsOrStr ci.crossBrowserId "unknown")) p
                { s with redis := c', userRateLimits := m, grokCalls := s.grokCalls + 1,
                         mimoCalls := n }
              rw [hcp]
              exact Or.inr (Or.inl ⟨p, none, c2, m, s.grokCalls + 1, n, st2, rfl⟩)
            | none =>
              simp only []
              exact Or.inr (Or.inr ⟨some ("Grok: fetch error, MiMo: " ++ me.getD ""), c', m,
                s.grokCalls + 1, n, rfl⟩)
          | httpNotOk =>
            simp only []
            obtain ⟨mp, me, n, hmm⟩ := tryMiMo_spec cfg w
              { s with redis := c', userRateLimits := m, grokCalls := s.grokCalls + 1 }
            rw [hmm]
            cases mp with
            | some p =>
              simp only []
              obtain ⟨c2, st2, hcp⟩ := cacheProfile_spec now w
                (getCacheKey (jsOrStr ci.fingerprintId "unknown")
                  (jsOrStr ci.crossBrowserId "unknown")) p
                { s with redis := c', userRateLimits := m, grokCalls := s.grokCalls + 1,
                         mimoCalls := n }
              rw [hcp]
              exact Or.inr (Or.inl ⟨p, none, c2, m, s.grokCalls + 1, n, st2, rfl⟩)
            | none =>
              simp only []
              exact Or.inr (Or.inr ⟨some ("Grok: HTTP error, MiMo: " ++ me.getD ""), c', m,
                s.grokCalls + 1, n, rfl⟩)
          | emptyBody =>
            simp only []
            obtain ⟨mp, me, n, hmm⟩ := tryMiMo_spec cfg w
              { s with redis := c', userRateLimits := m, grokCalls := s.grokCalls + 1 }
            rw [hmm]
            cases mp with
            | some p =>
              simp only []
              obtain ⟨c2, st2, hcp⟩ := cacheProfile_spec now w
                (getCacheKey (jsOrStr ci.fingerprintId "unknown")
                  (jsOrStr ci.crossBrowserId "unknown")) p
                { s with redis := c', userRateLimits := m, grokCalls := s.grokCalls + 1,
                         mimoCalls := n }
              rw [hcp]
              exact Or.inr (Or.inl ⟨p, none, c2, m, s.grokCalls + 1, n, st2, rfl⟩)
            | none =>
              simp only []
              exact Or.inr (Or.inr ⟨some "Empty Grok response", c', m,
                s.grokCalls + 1, n, rfl⟩)
          | parseFail =>
            simp only []
            obtain ⟨mp, me, n, hmm⟩ := tryMiMo_spec cfg w
              { s with redis := c', userRateLimits := m, grokCalls := s.grokCalls + 1 }
            rw [hmm]
            cases mp with
            | some p =>
              simp only []
              obtain ⟨c2, st2, hcp⟩ := cacheProfile_spec now w
                (getCacheKey (jsOrStr ci.fingerprintId "unknown")
                  (jsOrStr ci.crossBrowserId "unknown")) p
                { s with redis := c', userRateLimits := m, grokCalls := s.grokCalls + 1,
                         mimoCalls := n }
              rw [hcp]
              exact Or.inr (Or.inl ⟨p, none, c2, m, s.grokCalls + 1, n, st2, rfl⟩)
            | none =>
              simp only []
              exact Or.inr (Or.inr ⟨some "Failed to parse Grok response", c', m,
                s.grokCalls + 1, n, rfl⟩)
        · have hgkf : cfg.grokConfigured = false := by
            revert hgk; cases cfg.grokConfigured <;> simp
          rw [if_pos (by simp [hgkf])]
          obtain ⟨mp, me, n, hmm⟩ := tryMiMo_spec cfg w
            { s with redis := c', userRateLimits := m }
          rw [hmm]
          cases mp with
          | some p =>
            simp only []
            obtain ⟨c2, st2, hcp⟩ := cacheProfile_spec now w
              (getCacheKey (jsOrStr ci.fingerprintId "unknown")
                (jsOrStr ci.crossBrowserId "unknown")) p
              { s with redis := c', userRateLimits := m, mimoCalls := n }
            rw [hcp]
            exact Or.inr (Or.inl ⟨p, none, c2, m, s.grokCalls, n, st2, rfl⟩)
          | none =>
            simp only []
            exact Or.inr (Or.inr ⟨me, c', m, s.grokCalls, n, rfl⟩)

theorem getCachedProfile_open (now : Nat) (w : World) (k : String) (s : ServerState)
    (hconn : s.redis.clientOpen = true) (herr : s.redis.lastError = 0)
    (hgt : w.cacheGetThrows = false) :
    getCachedProfile now w k s = (storeLookup s.profileStore k, s) := by
  simp only [getCachedProfile]
  rw [getRedis_open now w hconn herr]
  simp [hgt]

theorem cacheProfile_open (now : Nat) (w : World) (k : String) (p : UserProfile)
    (s : ServerState)
    (hconn : s.redis.clientOpen = true) (herr : s.redis.lastError = 0)
    (hst : w.cacheSetThrows = false) :
    cacheProfile now w k p s =
      { s with profileStore := storeSet s.profileStore k p,
               profileWrites := s.profileWrites ++ [(k, p)] } := by
  simp only [cacheProfile]
  rw [@getRedis_open { s with profileWrites := s.profileWrites ++ [(k, p)] } now w hconn herr]
  simp [hst]

/-- C6: in every run of generateAIProfile, an "ai"-sourced result is the
profile that was passed to the cache write-through (cacheProfile is invoked
exactly once, with the returned profile, under the request's cache key),
while a "fallback"-sourced run never invokes the cache-write operation and
leaves the cached-profile store unchanged. -/
theorem c6_write_through_and_fallback_frame (now : Nat) (cfg : Config) (w : World)
    (ci : ClientInfo) (geo : Option GeoData) (s : ServerState) :
    ((generateAIProfile now cfg w ci geo s).1.source = "ai" →
      ∃ p, (generateAIProfile now cfg w ci geo s).1.profile = some p ∧
        (generateAIProfile now cfg w ci geo s).2.profileWrites =
          s.profileWrites ++ [(getCacheKey (jsOrStr ci.fingerprintId "unknown")
            (jsOrStr ci.crossBrowserId "unknown"), p)]) ∧
    ((generateAIProfile now cfg w ci geo s).1.source = "fallback" →
      (generateAIProfile now cfg w ci geo s).2.profileWrites = s.profileWrites ∧
      (generateAIProfile now cfg w ci geo s).2.profileStore = s.profileStore) := by
  rcases generateAIProfile_cases now cfg w ci geo s with
    ⟨p, c', h⟩ | ⟨p, e, c', rl, gk, mk, st', h⟩ | ⟨e, c', rl, gk, mk, h⟩
  · rw [h]
    constructor
    · intro hsrc; simp at hsrc
    · intro hsrc; simp at hsrc
  · rw [h]
    constructor
    · intro _; exact ⟨p, rfl, rfl⟩
    · intro hsrc; simp at hsrc
  · rw [h]
    constructor
    · intro hsrc; simp at hsrc
    · intro _; exact ⟨rfl, rfl⟩

/-- C9: requests missing fingerprintId or crossBrowserId have the literal
string "unknown" substituted, so all identity-less requests share the single
cache key getCacheKey "unknown" "unknown" and the single rate-limit bucket
"unknown:unknown"; concretely, a second identity-less visitor is served the
profile that a first identity-less visitor's run cached. -/
theorem c9_unknown_identity_collapse (now : Nat) (cfg : Config) (w : World) (ci1 ci2 : ClientInfo)
    (geo1 geo2 : Option GeoData) (s : ServerState) (p : UserProfile)
    (h11 : ci1.fingerprintId = none) (h12 : ci1.crossBrowserId = none)
    (h21 : ci2.fingerprintId = none) (h22 : ci2.crossBrowserId = none)
    (hconn : s.redis.clientOpen = true) (herr : s.redis.lastError = 0)
    (hgt : w.cacheGetThrows = false) (hst : w.cacheSetThrows = false)
    (hmiss : storeLookup s.profileStore (getCacheKey "unknown" "unknown") = none)
    (hrl : rlLookup s.userRateLimits "unknown:unknown" = none)
    (hcfg : cfg.grokConfigured = true) (hg : w.grok = .parsed p) :
    jsOrStr ci1.fingerprintId "unknown" = "unknown" ∧
    jsOrStr ci1.crossBrowserId "unknown" = "unknown" ∧
    jsOrStr ci2.fingerprintId "unknown" = "unknown" ∧
    jsOrStr ci2.crossBrowserId "unknown" = "unknown" ∧
    getCacheKey (jsOrStr ci1.fingerprintId "unknown") (jsOrStr ci1.crossBrowserId "unknown") =
      getCacheKey (jsOrStr ci2.fingerprintId "unknown") (jsOrStr ci2.crossBrowserId "unknown") ∧
    (jsOrStr ci1.fingerprintId "unknown" ++ ":" ++ jsOrStr ci1.crossBrowserId "unknown") =
      (jsOrStr ci2.fingerprintId "unknown" ++ ":" ++ jsOrStr ci2.crossBrowserId "unknown") ∧
    (generateAIProfile now cfg w ci1 geo1 s).1.source = "ai" ∧
    (generateAIProfile now cfg w ci2 geo2
        (generateAIProfile now cfg w ci1 geo1 s).2).1.source = "cache" ∧
    (generateAIProfile now cfg w ci2 geo2
        (generateAIProfile now cfg w ci1 geo1 s).2).1.profile =
      (generateAIProfile now cfg w ci1 geo1 s).1.profile := by
  have hcr : checkRateLimit now ("unknown" ++ ":" ++ "unknown") s.userRateLimits =
      (true, rlSet s.userRateLimits ("unknown" ++ ":" ++ "unknown")
        (1, now + RATE_LIMIT_WINDOW)) := by
    have hl : rlLookup s.userRateLimits ("unknown" ++ ":" ++ "unknown") = none := hrl
    simp only [checkRateLimit, hl]
  have e1 : generateAIProfile now cfg w ci1 geo1 s =
      ({ profile := some { p with aiGenerated := true, aiSource := some "grok" },
         source := "ai", error := none },
       { s with
         userRateLimits := rlSet s.userRateLimits ("unknown" ++ ":" ++ "unknown")
           (1, now + RATE_LIMIT_WINDOW),
         grokCalls := s.grokCalls + 1,
         profileStore := storeSet s.profileStore (getCacheKey "unknown" "unknown")
           { p with aiGenerated := true, aiSource := some "grok" },
         profileWrites := s.profileWrites ++ [(getCacheKey "unknown" "unknown",
           { p with aiGenerated := true, aiSource := some "grok" })] }) := by
    simp only [generateAIProfile, h11, h12, jsOrStr]
    rw [getCachedProfile_open now w (getCacheKey "unknown" "unknown") s hconn herr hgt,
      hmiss, hcfg, hcr, hg]
    show Prod.mk
        ({ profile := some { p with aiGenerated := true, aiSource := some "grok" },
           source := "ai", error := none } : ProfileResponse)
        (cacheProfile now w (getCacheKey "unknown" "unknown")
          { p with aiGenerated := true, aiSource := some "grok" }
          { s with
            userRateLimits := rlSet s.userRateLimits ("unknown" ++ ":" ++ "unknown")
              (1, now + RATE_LIMIT_WINDOW),
            grokCalls := s.grokCalls + 1 }) = _
    rw [@cacheProfile_open now w (getCacheKey "unknown" "unknown")
      { p with aiGenerated := true, aiSource := some "grok" }
      { s with
        userRateLimits := rlSet s.userRateLimits ("unknown" ++ ":" ++ "unknown")
          (1, now + RATE_LIMIT_WINDOW),
        grokCalls := s.grokCalls + 1 } hconn herr hst]
  have e2 : generateAIProfile now cfg w ci2 geo2 (generateAIProfile now cfg w ci1 geo1 s).2 =
      ({ profile := some { p with aiGenerated := true, aiSource := some "grok" },
         source := "cache", error := none },
       (generateAIProfile now cfg w ci1 geo1 s).2) := by
    rw [e1]
    simp only [generateAIProfile, h21, h22, jsOrStr]
    rw [@getCachedProfile_open now w (getCacheKey "unknown" "unknown")
      ({ s with
         userRateLimits := rlSet s.userRateLimits ("unknown" ++ ":" ++ "unknown")
           (1, now + RATE_LIMIT_WINDOW),
         grokCalls := s.grokCalls + 1,
         profileStore := storeSet s.profileStore (getCacheKey "unknown" "unknown")
           { p with aiGenerated := true, aiSource := some "grok" },
         profileWrites := s.profileWrites ++ [(getCacheKey "unknown" "unknown",
           { p with aiGenerated := true, aiSource := some "grok" })] }) hconn herr hgt]
    simp only [storeLookup_storeSet_self]
  refine ⟨by rw [h11]; rfl, by rw [h12]; rfl, by rw [h21]; rfl, by rw [h22]; rfl,
    by rw [h11, h12, h21, h22], by rw [h11, h12, h21, h22], by rw [e1], ?_, ?_⟩
  · rw [e2]
  · rw [e2, e1]

theorem getCachedProfile_down (now : Nat) (w : World) (k : String) (s : ServerState)
    (hdown : w.redisUp = false) (h1 : s.redis.clientOpen = false)
    (h2 : s.redis.connecting = false) :
    getCachedProfile now w k s = (none, { s with redis := (acquireConn now false s.redis).2 }) := by
  obtain ⟨ha, _, _⟩ := @acquireConn_down s.redis now h1 h2
  simp only [getCachedProfile, getRedis, hdown]
  simp [ha]

theorem cacheProfile_down (now : Nat) (w : World) (k : String) (p : UserProfile)
    (s : ServerState) (hdown : w.redisUp = false) (h1 : s.redis.clientOpen = false)
    (h2 : s.redis.connecting = false) :
    cacheProfile now w k p s =
      { s with redis := (acquireConn now false s.redis).2,
               profileWrites := s.profileWrites ++ [(k, p)] } := by
  obtain ⟨ha, _, _⟩ := @acquireConn_down s.redis now h1 h2
  simp only [cacheProfile, getRedis, hdown]
  simp [ha]

theorem generateAIProfile_down_allowed (now : Nat) (cfg : Config) (w : World)
    (ci : ClientInfo) (geo : Option GeoData) (s : ServerState) (p : UserProfile)
    (hdown : w.redisUp = false) (h1 : s.redis.clientOpen = false)
    (h2 : s.redis.connecting = false)
    (hcfg : cfg.grokConfigured = true) (hg : w.grok = .parsed p)
    (hallow : (checkRateLimit now (jsOrStr ci.fingerprintId "unknown" ++ ":" ++
      jsOrStr ci.crossBrowserId "unknown") s.userRateLimits).1 = true) :
    generateAIProfile now cfg w ci geo s =
      ({ profile := some { p with aiGenerated := true, aiSource := some "grok" },
         source := "ai", error := none },
       { s with
         redis := (acquireConn now false (acquireConn now false s.redis).2).2,
         userRateLimits := (checkRateLimit now (jsOrStr ci.fingerprintId "unknown" ++ ":" ++
           jsOrStr ci.crossBrowserId "unknown") s.userRateLimits).2,
         grokCalls := s.grokCalls + 1,
         profileWrites := s.profileWrites ++
           [(getCacheKey (jsOrStr ci.fingerprintId "unknown")
               (jsOrStr ci.crossBrowserId "unknown"),
             { p with aiGenerated := true, aiSource := some "grok" })] }) := by
  obtain ⟨_, hb, hc⟩ := @acquireConn_down s.redis now h1 h2
  have hcr : checkRateLimit now (jsOrStr ci.fingerprintId "unknown" ++ ":" ++
      jsOrStr ci.crossBrowserId "unknown") s.userRateLimits =
      (true, (checkRateLimit now (jsOrStr ci.fingerprintId "unknown" ++ ":" ++
        jsOrStr ci.crossBrowserId "unknown") s.userRateLimits).2) :=
    Prod.ext_iff.mpr ⟨hallow, rfl⟩
  simp only [generateAIProfile]
  rw [getCachedProfile_down now w (getCacheKey (jsOrStr ci.fingerprintId "unknown")
    (jsOrStr ci.crossBrowserId "unknown")) s hdown h1 h2, hcfg, hcr, hg]
  show Prod.mk
      ({ profile := some { p with aiGenerated := true, aiSource := some "grok" },
         source := "ai", error := none } : ProfileResponse)
      (cacheProfile now w
        (getCacheKey (jsOrStr ci.fingerprintId "unknown") (jsOrStr ci.crossBrowserId "unknown"))
        { p with aiGenerated := true, aiSource := some "grok" }
        { s with
          redis := (acquireConn now false s.redis).2,
          userRateLimits := (checkRateLimit now (jsOrStr ci.fingerprintId "unknown" ++ ":" ++
            jsOrStr ci.crossBrowserId "unknown") s.userRateLimits).2,
          grokCalls := s.grokCalls + 1 }) = _
  rw [cacheProfile_down now w
    (getCacheKey (jsOrStr ci.fingerprintId "unknown") (jsOrStr ci.crossBrowserId "unknown"))
    { p with aiGenerated := true, aiSource := some "grok" }
    { s with
      redis := (acquireConn now false s.redis).2,
      userRateLimits := (checkRateLimit now (jsOrStr ci.fingerprintId "unknown" ++ ":" ++
        jsOrStr ci.crossBrowserId "unknown") s.userRateLimits).2,
      grokCalls := s.grokCalls + 1 } hdown hb hc]

theorem generateAIProfile_down_denied (now : Nat) (cfg : Config) (w : World)
    (ci : ClientInfo) (geo : Option GeoData) (s : ServerState)
    (hdown : w.redisUp = false) (h1 : s.redis.clientOpen = false)
    (h2 : s.redis.connecting = false)
    (hcfg : cfg.grokConfigured = true)
    (hdeny : (checkRateLimit now (jsOrStr ci.fingerprintId "unknown" ++ ":" ++
      jsOrStr ci.crossBrowserId "unknown") s.userRateLimits).1 = false) :
    generateAIProfile now cfg w ci geo s =
      ({ profile := some (generateFallbackProfile ci geo), source := "fallback",
         error := some "Rate limited" },
       { s with
         redis := (acquireConn now false s.redis).2,
         userRateLimits := (checkRateLimit now (jsOrStr ci.fingerprintId "unknown" ++ ":" ++
           jsOrStr ci.crossBrowserId "unknown") s.userRateLimits).2 }) := by
  have hcr : checkRateLimit now (jsOrStr ci.fingerprintId "unknown" ++ ":" ++
      jsOrStr ci.crossBrowserId "unknown") s.userRateLimits =
      (false, (checkRateLimit now (jsOrStr ci.fingerprintId "unknown" ++ ":" ++
        jsOrStr ci.crossBrowserId "unknown") s.userRateLimits).2) :=
    Prod.ext_iff.mpr ⟨hdeny, rfl⟩
  simp only [generateAIProfile]
  rw [getCachedProfile_down now w (getCacheKey (jsOrStr ci.fingerprintId "unknown")
    (jsOrStr ci.crossBrowserId "unknown")) s hdown h1 h2, hcfg, hcr]
  rfl

/-- C4: for a fixed caller with no prior window, with both providers healthy
(Grok answers with a valid profile) and the store down so every call misses
the cache, the first two calls inside one window are served by the provider
("ai"), the third call inside the window is routed to the deterministic
rule-based fallback with the "Rate limited" error, and a third call falling
in the next window (after the reset time) is not rate-limited. -/
theorem c4_rate_limit_boundary (t1 t2 t3 t4 : Nat) (cfg : Config) (w : World) (ci : ClientInfo)
    (geo : Option GeoData) (s : ServerState) (p : UserProfile)
    (hdown : w.redisUp = false) (h1 : s.redis.clientOpen = false)
    (h2 : s.redis.connecting = false)
    (hcfg : cfg.grokConfigured = true) (hg : w.grok = .parsed p)
    (hrl : rlLookup s.userRateLimits (jsOrStr ci.fingerprintId "unknown" ++ ":" ++ jsOrStr ci.crossBrowserId "unknown") = none)
    (ht2 : t2 ≤ t1 + RATE_LIMIT_WINDOW) (ht3 : t3 ≤ t1 + RATE_LIMIT_WINDOW)
    (ht4 : t1 + RATE_LIMIT_WINDOW < t4) :
    (generateAIProfile t1 cfg w ci geo s).1.source = "ai" ∧
    (generateAIProfile t2 cfg w ci geo (generateAIProfile t1 cfg w ci geo s).2).1.source
      = "ai" ∧
    (generateAIProfile t3 cfg w ci geo
        (generateAIProfile t2 cfg w ci geo (generateAIProfile t1 cfg w ci geo s).2).2).1
      = { profile := some (generateFallbackProfile ci geo), source := "fallback",
          error := some "Rate limited" } ∧
    (generateAIProfile t4 cfg w ci geo
        (generateAIProfile t2 cfg w ci geo (generateAIProfile t1 cfg w ci geo s).2).2).1.source
      = "ai" := by
  have hm1 : checkRateLimit t1 (jsOrStr ci.fingerprintId "unknown" ++ ":" ++ jsOrStr ci.crossBrowserId "unknown") s.userRateLimits
      = (true, rlSet s.userRateLimits (jsOrStr ci.fingerprintId "unknown" ++ ":" ++ jsOrStr ci.crossBrowserId "unknown") (1, t1 + RATE_LIMIT_WINDOW)) := by
    simp [checkRateLimit, hrl]
  have hm2 : checkRateLimit t2 (jsOrStr ci.fingerprintId "unknown" ++ ":" ++ jsOrStr ci.crossBrowserId "unknown")
        (rlSet s.userRateLimits (jsOrStr ci.fingerprintId "unknown" ++ ":" ++ jsOrStr ci.crossBrowserId "unknown") (1, t1 + RATE_LIMIT_WINDOW))
      = (true, rlSet (rlSet s.userRateLimits (jsOrStr ci.fingerprintId "unknown" ++ ":" ++ jsOrStr ci.crossBrowserId "unknown") (1, t1 + RATE_LIMIT_WINDOW))
          (jsOrStr ci.fingerprintId "unknown" ++ ":" ++ jsOrStr ci.crossBrowserId "unknown") (2, t1 + RATE_LIMIT_WINDOW)) := by
    simp [checkRateLimit, rlLookup_rlSet_self, Nat.not_lt.mpr ht2, RATE_LIMIT_MAX]
  have hm3 : checkRateLimit t3 (jsOrStr ci.fingerprintId "unknown" ++ ":" ++ jsOrStr ci.crossBrowserId "unknown")
        (rlSet (rlSet s.userRateLimits (jsOrStr ci.fingerprintId "unknown" ++ ":" ++ jsOrStr ci.crossBrowserId "unknown") (1, t1 + RATE_LIMIT_WINDOW))
          (jsOrStr ci.fingerprintId "unknown" ++ ":" ++ jsOrStr ci.crossBrowserId "unknown") (2, t1 + RATE_LIMIT_WINDOW))
      = (false, rlSet (rlSet s.userRateLimits (jsOrStr ci.fingerprintId "unknown" ++ ":" ++ jsOrStr ci.crossBrowserId "unknown") (1, t1 + RATE_LIMIT_WINDOW))
          (jsOrStr ci.fingerprintId "unknown" ++ ":" ++ jsOrStr ci.crossBrowserId "unknown") (2, t1 + RATE_LIMIT_WINDOW)) := by
    simp [checkRateLimit, rlLookup_rlSet_self, Nat.not_lt.mpr ht3, RATE_LIMIT_MAX]
  have hm4 : checkRateLimit t4 (jsOrStr ci.fingerprintId "unknown" ++ ":" ++ jsOrStr ci.crossBrowserId "unknown")
        (rlSet (rlSet s.userRateLimits (jsOrStr ci.fingerprintId "unknown" ++ ":" ++ jsOrStr ci.crossBrowserId "unknown") (1, t1 + RATE_LIMIT_WINDOW))
          (jsOrStr ci.fingerprintId "unknown" ++ ":" ++ jsOrStr ci.crossBrowserId "unknown") (2, t1 + RATE_LIMIT_WINDOW))
      = (true, rlSet (rlSet (rlSet s.userRateLimits (jsOrStr ci.fingerprintId "unknown" ++ ":" ++ jsOrStr ci.crossBrowserId "unknown") (1, t1 + RATE_LIMIT_WINDOW))
          (jsOrStr ci.fingerprintId "unknown" ++ ":" ++ jsOrStr ci.crossBrowserId "unknown") (2, t1 + RATE_LIMIT_WINDOW)) (jsOrStr ci.fingerprintId "unknown" ++ ":" ++ jsOrStr ci.crossBrowserId "unknown") (1, t4 + RATE_LIMIT_WINDOW)) := by
    simp [checkRateLimit, rlLookup_rlSet_self, ht4]
  obtain ⟨_, hb1, hc1⟩ := @acquireConn_down s.redis t1 h1 h2
  obtain ⟨_, hb2, hc2⟩ := @acquireConn_down (acquireConn t1 false s.redis).2 t1 hb1 hc1
  obtain ⟨_, hb3, hc3⟩ := @acquireConn_down ((acquireConn t1 false (acquireConn t1 false s.redis).2).2) t2 hb2 hc2
  obtain ⟨_, hb4, hc4⟩ :=
    @acquireConn_down (acquireConn t2 false ((acquireConn t1 false (acquireConn t1 false s.redis).2).2)).2 t2 hb3 hc3
  have e1 := generateAIProfile_down_allowed t1 cfg w ci geo s p hdown h1 h2 hcfg hg
    (by rw [hm1])
  have hallow2 : (checkRateLimit t2 (jsOrStr ci.fingerprintId "unknown" ++ ":" ++ jsOrStr ci.crossBrowserId "unknown")
      ((checkRateLimit t1 (jsOrStr ci.fingerprintId "unknown" ++ ":" ++ jsOrStr ci.crossBrowserId "unknown") s.userRateLimits).2)).1 = true := by
    simp only [hm1, hm2]
  have e2 := generateAIProfile_down_allowed t2 cfg w ci geo
    ({ s with
        redis := (acquireConn t1 false (acquireConn t1 false s.redis).2).2,
        userRateLimits := (checkRateLimit t1 (jsOrStr ci.fingerprintId "unknown" ++ ":" ++ jsOrStr ci.crossBrowserId "unknown") s.userRateLimits).2,
        grokCalls := s.grokCalls + 1,
        profileWrites := s.profileWrites ++ [(getCacheKey (jsOrStr ci.fingerprintId "unknown") (jsOrStr ci.crossBrowserId "unknown"), { p with aiGenerated := true, aiSource := some "grok" })] }) p hdown hb2 hc2 hcfg hg hallow2
  have hdeny3 : (checkRateLimit t3 (jsOrStr ci.fingerprintId "unknown" ++ ":" ++ jsOrStr ci.crossBrowserId "unknown")
      ((checkRateLimit t2 (jsOrStr ci.fingerprintId "unknown" ++ ":" ++ jsOrStr ci.crossBrowserId "unknown") ((checkRateLimit t1 (jsOrStr ci.fingerprintId "unknown" ++ ":" ++ jsOrStr ci.crossBrowserId "unknown") s.userRateLimits).2)).2)).1
      = false := by
    simp only [hm1, hm2, hm3]
  have hallow4 : (checkRateLimit t4 (jsOrStr ci.fingerprintId "unknown" ++ ":" ++ jsOrStr ci.crossBrowserId "unknown")
      ((checkRateLimit t2 (jsOrStr ci.fingerprintId "unknown" ++ ":" ++ jsOrStr ci.crossBrowserId "unknown") ((checkRateLimit t1 (jsOrStr ci.fingerprintId "unknown" ++ ":" ++ jsOrStr ci.crossBrowserId "unknown") s.userRateLimits).2)).2)).1
      = true := by
    simp only [hm1, hm2, hm4]
  have e3 := generateAIProfile_down_denied t3 cfg w ci geo
    ({ ({ s with
        redis := (acquireConn t1 false (acquireConn t1 false s.redis).2).2,
        userRateLimits := (checkRateLimit t1 (jsOrStr ci.fingerprintId "unknown" ++ ":" ++ jsOrStr ci.crossBrowserId "unknown") s.userRateLimits).2,
        grokCalls := s.grokCalls + 1,
        profileWrites := s.profileWrites ++ [(getCacheKey (jsOrStr ci.fingerprintId "unknown") (jsOrStr ci.crossBrowserId "unknown"), { p with aiGenerated := true, aiSource := some "grok" })] } : ServerState) with
        redis := (acquireConn t2 false (acquireConn t2 false ((acquireConn t1 false (acquireConn t1 false s.redis).2).2)).2).2,
        userRateLimits := (checkRateLimit t2 (jsOrStr ci.fingerprintId "unknown" ++ ":" ++ jsOrStr ci.crossBrowserId "unknown")
          ({ s with
        redis := (acquireConn t1 false (acquireConn t1 false s.redis).2).2,
        userRateLimits := (checkRateLimit t1 (jsOrStr ci.fingerprintId "unknown" ++ ":" ++ jsOrStr ci.crossBrowserId "unknown") s.userRateLimits).2,
        grokCalls := s.grokCalls + 1,
        profileWrites := s.profileWrites ++ [(getCacheKey (jsOrStr ci.fingerprintId "unknown") (jsOrStr ci.crossBrowserId "unknown"), { p with aiGenerated := true, aiSource := some "grok" })] } : ServerState).userRateLimits).2,
        grokCalls := ({ s with
        redis := (acquireConn t1 false (acquireConn t1 false s.redis).2).2,
        userRateLimits := (checkRateLimit t1 (jsOrStr ci.fingerprintId "unknown" ++ ":" ++ jsOrStr ci.crossBrowserId "unknown") s.userRateLimits).2,
        grokCalls := s.grokCalls + 1,
        profileWrites := s.profileWrites ++ [(getCacheKey (jsOrStr ci.fingerprintId "unknown") (jsOrStr ci.crossBrowserId "unknown"), { p with aiGenerated := true, aiSource := some "grok" })] } : ServerState).grokCalls + 1,
        profileWrites := ({ s with
        redis := (acquireConn t1 false (acquireConn t1 false s.redis).2).2,
        userRateLimits := (checkRateLimit t1 (jsOrStr ci.fingerprintId "unknown" ++ ":" ++ jsOrStr ci.crossBrowserId "unknown") s.userRateLimits).2,
        grokCalls := s.grokCalls + 1,
        profileWrites := s.profileWrites ++ [(getCacheKey (jsOrStr ci.fingerprintId "unknown") (jsOrStr ci.crossBrowserId "unknown"), { p with aiGenerated := true, aiSource := some "grok" })] } : ServerState).profileWrites ++ [(getCacheKey (jsOrStr ci.fingerprintId "unknown") (jsOrStr ci.crossBrowserId "unknown"), { p with aiGenerated := true, aiSource := some "grok" })] }) hdown hb4 hc4 hcfg hdeny3
  have e4 := generateAIProfile_down_allowed t4 cfg w ci geo
    ({ ({ s with
        redis := (acquireConn t1 false (acquireConn t1 false s.redis).2).2,
        userRateLimits := (checkRateLimit t1 (jsOrStr ci.fingerprintId "unknown" ++ ":" ++ jsOrStr ci.crossBrowserId "unknown") s.userRateLimits).2,
        grokCalls := s.grokCalls + 1,
        profileWrites := s.profileWrites ++ [(getCacheKey (jsOrStr ci.fingerprintId "unknown") (jsOrStr ci.crossBrowserId "unknown"), { p with aiGenerated := true, aiSource := some "grok" })] } : ServerState) with
        redis := (acquireConn t2 false (acquireConn t2 false ((acquireConn t1 false (acquireConn t1 false s.redis).2).2)).2).2,
        userRateLimits := (checkRateLimit t2 (jsOrStr ci.fingerprintId "unknown" ++ ":" ++ jsOrStr ci.crossBrowserId "unknown")
          ({ s with
        redis := (acquireConn t1 false (acquireConn t1 false s.redis).2).2,
        userRateLimits := (checkRateLimit t1 (jsOrStr ci.fingerprintId "unknown" ++ ":" ++ jsOrStr ci.crossBrowserId "unknown") s.userRateLimits).2,
        grokCalls := s.grokCalls + 1,
        profileWrites := s.profileWrites ++ [(getCacheKey (jsOrStr ci.fingerprintId "unknown") (jsOrStr ci.crossBrowserId "unknown"), { p with aiGenerated := true, aiSource := some "grok" })] } : ServerState).userRateLimits).2,
        grokCalls := ({ s with
        redis := (acquireConn t1 false (acquireConn t1 false s.redis).2).2,
        userRateLimits := (checkRateLimit t1 (jsOrStr ci.fingerprintId "unknown" ++ ":" ++ jsOrStr ci.crossBrowserId "unknown") s.userRateLimits).2,
        grokCalls := s.grokCalls + 1,
        profileWrites := s.profileWrites ++ [(getCacheKey (jsOrStr ci.fingerprintId "unknown") (jsOrStr ci.crossBrowserId "unknown"), { p with aiGenerated := true, aiSource := some "grok" })] } : ServerState).grokCalls + 1,
        profileWrites := ({ s with
        redis := (acquireConn t1 false (acquireConn t1 false s.redis).2).2,
        userRateLimits := (checkRateLimit t1 (jsOrStr ci.fingerprintId "unknown" ++ ":" ++ jsOrStr ci.crossBrowserId "unknown") s.userRateLimits).2,
        grokCalls := s.grokCalls + 1,
        profileWrites := s.profileWrites ++ [(getCacheKey (jsOrStr ci.fingerprintId "unknown") (jsOrStr ci.crossBrowserId "unknown"), { p with aiGenerated := true, aiSource := some "grok" })] } : ServerState).profileWrites ++ [(getCacheKey (jsOrStr ci.fingerprintId "unknown") (jsOrStr ci.crossBrowserId "unknown"), { p with aiGenerated := true, aiSource := some "grok" })] }) p hdown hb4 hc4 hcfg hg hallow4
  refine ⟨by rw [e1], by rw [e1, e2], ?_, ?_⟩
  · rw [e1, e2, e3]
  · rw [e1, e2, e4]

theorem trackUniqueVisitor_new (now : Nat) (w : World) (fid cbid : String) (s : ServerState)
    (hconn : s.trackingRedis.clientOpen = true) (herr : s.trackingRedis.lastError = 0)
    (hops : w.sAddThrowsAt 1 = false)
    (hmem : s.visitors.contains (fid ++ ":" ++ cbid) = false) :
    trackUniqueVisitor now w fid cbid s =
      (true, { s with visitors := (fid ++ ":" ++ cbid) :: s.visitors }) := by
  have hmem' : fid ++ ":" ++ cbid ∉ s.visitors := by simpa using hmem
  simp only [trackUniqueVisitor, trackUniqueVisitorGo]
  rw [getTrackingRedis_open now w hconn herr]
  simp [hops, hmem']

theorem trackUniqueVisitor_seen (now : Nat) (w : World) (fid cbid : String) (s : ServerState)
    (hconn : s.trackingRedis.clientOpen = true) (herr : s.trackingRedis.lastError = 0)
    (hops : w.sAddThrowsAt 1 = false)
    (hmem : s.visitors.contains (fid ++ ":" ++ cbid) = true) :
    trackUniqueVisitor now w fid cbid s = (false, s) := by
  have hmem' : fid ++ ":" ++ cbid ∈ s.visitors := by simpa using hmem
  simp only [trackUniqueVisitor, trackUniqueVisitorGo]
  rw [getTrackingRedis_open now w hconn herr]
  simp [hops, hmem']

theorem getTotalUniqueVisitors_avail (now : Nat) (w : World) (s : ServerState)
    (hconn : s.trackingRedis.clientOpen = true) (herr : s.trackingRedis.lastError = 0)
    (hops : w.sCardThrowsAt 1 = false) :
    getTotalUniqueVisitors now w s = (s.visitors.length, s) := by
  simp only [getTotalUniqueVisitors, getTotalUniqueVisitorsGo]
  rw [getTrackingRedis_open now w hconn herr]
  simp [hops]

theorem repeatTrack_seen (now : Nat) (w : World) (fid cbid : String) (s : ServerState)
    (hconn : s.trackingRedis.clientOpen = true) (herr : s.trackingRedis.lastError = 0)
    (hops : w.sAddThrowsAt 1 = false)
    (hmem : s.visitors.contains (fid ++ ":" ++ cbid) = true) :
    ∀ k, repeatTrack now w fid cbid k s = (List.replicate k false, s) := by
  intro k
  induction k with
  | zero => rfl
  | succ k ih =>
    simp only [repeatTrack]
    rw [trackUniqueVisitor_seen now w fid cbid s hconn herr hops hmem]
    simp [ih, List.replicate_succ]

/-- C8: with the tracking store available, trackUniqueVisitor returns true
exactly once across any number of repeated calls with the same visitor id
(the first call, which performs the insert), and getTotalUniqueVisitors
increases by exactly 1 after that first call and by 0 after every subsequent
call with the same id. -/
theorem c8_visitor_idempotence (now : Nat) (w : World) (fid cbid : String) (s : ServerState) (n : Nat)
    (hconn : s.trackingRedis.clientOpen = true) (herr : s.trackingRedis.lastError = 0)
    (hadd : w.sAddThrowsAt 1 = false) (hcard : w.sCardThrowsAt 1 = false)
    (hnew : s.visitors.contains (fid ++ ":" ++ cbid) = false) :
    (repeatTrack now w fid cbid (n + 1) s).1 = true :: List.replicate n false ∧
    (getTotalUniqueVisitors now w (trackUniqueVisitor now w fid cbid s).2).1
      = (getTotalUniqueVisitors now w s).1 + 1 ∧
    (getTotalUniqueVisitors now w (repeatTrack now w fid cbid (n + 1) s).2).1
      = (getTotalUniqueVisitors now w s).1 + 1 := by
  have e1 := trackUniqueVisitor_new now w fid cbid s hconn herr hadd hnew
  have hmem1 : ({ s with visitors := (fid ++ ":" ++ cbid) :: s.visitors }
      : ServerState).visitors.contains (fid ++ ":" ++ cbid) = true := by
    simp
  have e2 := repeatTrack_seen now w fid cbid
    { s with visitors := (fid ++ ":" ++ cbid) :: s.visitors } hconn herr hadd hmem1 n
  have hrep : repeatTrack now w fid cbid (n + 1) s =
      (true :: List.replicate n false,
       { s with visitors := (fid ++ ":" ++ cbid) :: s.visitors }) := by
    simp only [repeatTrack]
    rw [e1]
    simp [e2]
  refine ⟨by rw [hrep], ?_, ?_⟩
  · rw [e1, getTotalUniqueVisitors_avail now w s hconn herr hcard,
      getTotalUniqueVisitors_avail now w
        { s with visitors := (fid ++ ":" ++ cbid) :: s.visitors } hconn herr hcard]
    simp
  · rw [hrep, getTotalUniqueVisitors_avail now w s hconn herr hcard,
      getTotalUniqueVisitors_avail now w
        { s with visitors := (fid ++ ":" ++ cbid) :: s.visitors } hconn herr hcard]
    simp

theorem getAuctionCache_spec (now : Nat) (w : World) (k : String) (s : ServerState) :
    ∃ res c', getAuctionCache now w k s = (res, { s with redis := c' }) := by
  obtain ⟨avail, c', hg⟩ := getRedis_spec now w s
  unfold getAuctionCache
  rw [hg]
  cases avail
  · exact ⟨none, c', by simp⟩
  · by_cases ht : w.cacheGetThrows
    · exact ⟨none, c', by simp [ht]⟩
    · exact ⟨storeLookup s.auctionStore k, c', by simp [ht]⟩

theorem getAuctionCache_open (now : Nat) (w : World) (k : String) (s : ServerState)
    (hconn : s.redis.clientOpen = true) (herr : s.redis.lastError = 0)
    (hgt : w.cacheGetThrows = false) :
    getAuctionCache now w k s = (storeLookup s.auctionStore k, s) := by
  simp only [getAuctionCache]
  rw [getRedis_open now w hconn herr]
  simp [hgt]

theorem setAuctionCache_spec (now : Nat) (w : World) (k : String) (r : AIAuctionResult)
    (s : ServerState) :
    ∃ c' st', setAuctionCache now w k r s =
      { s with redis := c', auctionStore := st',
               auctionWrites := s.auctionWrites ++ [(k, r)] } := by
  obtain ⟨avail, c', hg⟩ :=
    getRedis_spec now w { s with auctionWrites := s.auctionWrites ++ [(k, r)] }
  simp only [setAuctionCache]
  rw [hg]
  cases avail
  · exact ⟨c', s.auctionStore, by simp⟩
  · by_cases ht : w.cacheSetThrows
    · exact ⟨c', s.auctionStore, by simp [ht]⟩
    · exact ⟨c', storeSet s.auctionStore k r, by simp [ht]⟩

theorem tryMiMoAuction_spec (cfg : Config) (w : World) (s : ServerState) :
    ∃ mr n, tryMiMoAuction cfg w s = (mr, { s with mimoCalls := n }) := by
  unfold tryMiMoAuction
  by_cases hc : cfg.openrouterConfigured
  · cases hw : w.mimoAuction
    · exact ⟨none, s.mimoCalls + 1, by simp [hc, hw]⟩
    · exact ⟨none, s.mimoCalls + 1, by simp [hc, hw]⟩
    · exact ⟨none, s.mimoCalls + 1, by simp [hc, hw]⟩
    · exact ⟨none, s.mimoCalls + 1, by simp [hc, hw]⟩
    · next r =>
        exact ⟨some { r with source := "mimo" }, s.mimoCalls + 1, by simp [hc, hw]⟩
  · exact ⟨none, s.mimoCalls, by simp [hc]⟩

theorem generateAIAuction_rl (now : Nat) (cfg : Config) (w : World)
    (profileSummary : List Nat) (country countryCode : String) (s : ServerState) :
    (generateAIAuction now cfg w profileSummary country countryCode s).2.userRateLimits
      = s.userRateLimits := by
  obtain ⟨res, c', hgc⟩ :=
    getAuctionCache_spec now w (auctionCacheKey profileSummary countryCode) s
  simp only [generateAIAuction]
  rw [hgc]
  cases res with
  | some r => rfl
  | none =>
    by_cases hgk : cfg.grokConfigured = true
    · rw [if_pos hgk]
      cases hw : w.grokAuction with
      | parsed r0 =>
        simp only []
        obtain ⟨c2, st2, hsc⟩ := setAuctionCache_spec now w
          (auctionCacheKey profileSummary countryCode) { r0 with source := "grok" }
          { s with redis := c', grokCalls := s.grokCalls + 1 }
        rw [hsc]
      | fetchThrow =>
        simp only []
        obtain ⟨mr, n, hmm⟩ := tryMiMoAuction_spec cfg w
          { s with redis := c', grokCalls := s.grokCalls + 1 }
        rw [hmm]
        cases mr with
        | some r =>
          simp only []
          obtain ⟨c2, st2, hsc⟩ := setAuctionCache_spec now w
            (auctionCacheKey profileSummary countryCode) r
            { s with redis := c', grokCalls := s.grokCalls + 1, mimoCalls := n }
          rw [hsc]
        | none => rfl
      | httpNotOk =>
        simp only []
        obtain ⟨mr, n, hmm⟩ := tryMiMoAuction_spec cfg w
          { s with redis := c', grokCalls := s.grokCalls + 1 }
        rw [hmm]
        cases mr with
        | some r =>
          simp only []
          obtain ⟨c2, st2, hsc⟩ := setAuctionCache_spec now w
            (auctionCacheKey profileSummary countryCode) r
            { s with redis := c', grokCalls := s.grokCalls + 1, mimoCalls := n }
          rw [hsc]
        | none => rfl
      | emptyBody =>
        simp only []
        obtain ⟨mr, n, hmm⟩ := tryMiMoAuction_spec cfg w
          { s with redis := c', grokCalls := s.grokCalls + 1 }
        rw [hmm]
        cases mr with
        | some r =>
          simp only []
          obtain ⟨c2, st2, hsc⟩ := setAuctionCache_spec now w
            (auctionCacheKey profileSummary countryCode) r
            { s with redis := c', grokCalls := s.grokCalls + 1, mimoCalls := n }
          rw [hsc]
        | none => rfl
      | parseFail =>
        simp only []
        obtain ⟨mr, n, hmm⟩ := tryMiMoAuction_spec cfg w
          { s with redis := c', grokCalls := s.grokCalls + 1 }
        rw [hmm]
        cases mr with
        | some r =>
          simp only []
          obtain ⟨c2, st2, hsc⟩ := setAuctionCache_spec now w
            (auctionCacheKey profileSummary countryCode) r
            { s with redis := c', grokCalls := s.grokCalls + 1, mimoCalls := n }
          rw [hsc]
        | none => rfl
    · rw [if_neg hgk]
      obtain ⟨mr, n, hmm⟩ := tryMiMoAuction_spec cfg w { s with redis := c' }
      rw [hmm]
      cases mr with
      | some r =>
        simp only []
        obtain ⟨c2, st2, hsc⟩ := setAuctionCache_spec now w
          (auctionCacheKey profileSummary countryCode) r
          { s with redis := c', mimoCalls := n }
        rw [hsc]
      | none => rfl

/-- C2 amended: the auction path performs no rate-limit check at all.  For
every auction request generateAIAuction leaves the rate-limiter state
untouched, and a cache-missing request goes straight to the Fallback Chain:
with Grok configured and answering, the provider is consulted (grokCalls
increments) and the result is written through to the auction cache.  This is
the amended form of the claim that the auction path checks the Rate Limiter
between cache lookup and fallback-chain execution. -/
theorem c2_auction_no_rate_limit (now : Nat) (cfg : Config) (w : World) (profileSummary : List Nat)
    (country countryCode : String) (s : ServerState) (r : AIAuctionResult)
    (hconn : s.redis.clientOpen = true) (herr : s.redis.lastError = 0)
    (hgt : w.cacheGetThrows = false)
    (hmiss : storeLookup s.auctionStore (auctionCacheKey profileSummary countryCode) = none)
    (hcfg : cfg.grokConfigured = true) (hg : w.grokAuction = .parsed r) :
    (∀ (cfg2 : Config) (w2 : World) (s2 : ServerState),
      (generateAIAuction now cfg2 w2 profileSummary country countryCode s2).2.userRateLimits
        = s2.userRateLimits) ∧
    (generateAIAuction now cfg w profileSummary country countryCode s).1
      = { r with source := "grok" } ∧
    (generateAIAuction now cfg w profileSummary country countryCode s).2.grokCalls
      = s.grokCalls + 1 ∧
    (generateAIAuction now cfg w profileSummary country countryCode s).2.auctionWrites
      = s.auctionWrites ++
        [(auctionCacheKey profileSummary countryCode, { r with source := "grok" })] := by
  have hrun : generateAIAuction now cfg w profileSummary country countryCode s =
      ({ r with source := "grok" },
       setAuctionCache now w (auctionCacheKey profileSummary countryCode)
         { r with source := "grok" } { s with grokCalls := s.grokCalls + 1 }) := by
    simp only [generateAIAuction]
    rw [getAuctionCache_open now w (auctionCacheKey profileSummary countryCode) s
      hconn herr hgt, hmiss, hcfg, hg]
    rfl
  obtain ⟨c2, st2, hsc⟩ := setAuctionCache_spec now w
    (auctionCacheKey profileSummary countryCode) { r with source := "grok" }
    { s with grokCalls := s.grokCalls + 1 }
  refine ⟨fun cfg2 w2 s2 => generateAIAuction_rl now cfg2 w2 profileSummary country
    countryCode s2, ?_, ?_, ?_⟩
  · rw [hrun]
  · rw [hrun, hsc]
  · rw [hrun, hsc]

theorem b64Encode_append : ∀ (n : Nat) (l m : List Nat), l.length = 3 * n →
    b64Encode (l ++ m) = b64Encode l ++ b64Encode m := by
  intro n
  induction n with
  | zero =>
    intro l m hl
    have : l = [] := List.eq_nil_of_length_eq_zero (by omega)
    subst this
    simp [b64Encode]
  | succ n ih =>
    intro l m hl
    match l, hl with
    | a :: b :: c :: rest, hl =>
      simp only [List.cons_append, b64Encode, List.append_eq]
      rw [ih rest m (by simp at hl; omega)]

theorem b64Encode_length : ∀ (n : Nat) (l : List Nat), l.length = 3 * n →
    (b64Encode l).length = 4 * n := by
  intro n
  induction n with
  | zero =>
    intro l hl
    have : l = [] := List.eq_nil_of_length_eq_zero (by omega)
    subst this
    simp [b64Encode]
  | succ n ih =>
    intro l hl
    match l, hl with
    | a :: b :: c :: rest, hl =>
      simp only [b64Encode, List.length_cons]
      rw [ih rest (by simp at hl; omega)]
      omega

theorem b64Encode_take_32 (s1 s2 : List Nat) (h : s1.take 24 = s2.take 24) :
    (b64Encode s1).take 32 = (b64Encode s2).take 32 := by
  have key : ∀ t : List Nat, 24 ≤ t.length →
      (b64Encode t).take 32 = b64Encode (t.take 24) := by
    intro t ht
    have hsplit : t = t.take 24 ++ t.drop 24 := (List.take_append_drop 24 t).symm
    have hlen : (t.take 24).length = 3 * 8 := by
      simp [List.length_take]
      omega
    have hlen4 : (b64Encode (t.take 24)).length = 32 := by
      have := b64Encode_length 8 (t.take 24) hlen
      omega
    conv_lhs => rw [hsplit]
    rw [b64Encode_append 8 (t.take 24) (t.drop 24) hlen, ← hlen4, List.take_left]
  by_cases h1 : 24 ≤ s1.length
  · by_cases h2 : 24 ≤ s2.length
    · rw [key s1 h1, key s2 h2, h]
    · have := congrArg List.length h
      simp [List.length_take] at this
      omega
  · by_cases h2 : 24 ≤ s2.length
    · have := congrArg List.length h
      simp [List.length_take] at this
      omega
    · have e1 : s1.take 24 = s1 := List.take_of_length_le (by omega)
      have e2 : s2.take 24 = s2 := List.take_of_length_le (by omega)
      rw [e1, e2] at h
      rw [h]

/-- C10: the auction cache key is derived from only the first 32 base64
characters of the profile summary (its first 24 bytes) plus the country
code: any two distinct summaries agreeing on their first 24 bytes and
sharing a country code produce the same cache key, and the second request is
served the first request's cached auction result. -/
theorem c10_auction_key_prefix_collision (s1 s2 : List Nat) (countryCode country : String) (R : AIAuctionResult)
    (now : Nat) (cfg : Config) (w : World) (st : ServerState)
    (hne : s1 ≠ s2) (hpre : s1.take 24 = s2.take 24)
    (hconn : st.redis.clientOpen = true) (herr : st.redis.lastError = 0)
    (hgt : w.cacheGetThrows = false)
    (hcache : storeLookup st.auctionStore (auctionCacheKey s1 countryCode) = some R) :
    auctionCacheKey s1 countryCode = auctionCacheKey s2 countryCode ∧
    generateAIAuction now cfg w s2 country countryCode st = (R, st) := by
  have hkey : auctionCacheKey s1 countryCode = auctionCacheKey s2 countryCode := by
    unfold auctionCacheKey profileHash
    rw [b64Encode_take_32 s1 s2 hpre]
  refine ⟨hkey, ?_⟩
  simp only [generateAIAuction]
  rw [getAuctionCache_open now w (auctionCacheKey s2 countryCode) st hconn herr hgt,
    ← hkey, hcache]

/-- C2 counterexample: a concrete auction request at a moment when the only
rate-limit window is already at the maximum (the limiter would deny the
caller, as the last conjunct shows) still goes straight to the provider on a
cache miss - grokCalls increments - and the rate-limiter map is left exactly
as it was: the auction path never consults checkRateLimit, contradicting the
claim that the Rate Limiter is checked before the Fallback Chain exactly as
on the profile path. -/
theorem c2_counterexample :
    (generateAIAuction 5 ⟨true, true⟩ w0 [1, 2, 3] "United States" "US" sRateLimited).1.source
      = "grok" ∧
    (generateAIAuction 5 ⟨true, true⟩ w0 [1, 2, 3] "United States" "US" sRateLimited).2.grokCalls
      = sRateLimited.grokCalls + 1 ∧
    (generateAIAuction 5 ⟨true, true⟩ w0 [1, 2, 3] "United States" "US"
        sRateLimited).2.userRateLimits = sRateLimited.userRateLimits ∧
    checkRateLimit 5 "u:v" sRateLimited.userRateLimits = (false, sRateLimited.userRateLimits) := by
  refine ⟨by decide, by decide, by decide, by decide⟩

/-- C2 witness: a concrete cache-missing auction request against a healthy
provider, instantiating the amended theorem. -/
theorem c2_witness :
    (∀ (cfg2 : Config) (w2 : World) (s2 : ServerState),
      (generateAIAuction 5 cfg2 w2 [1, 2, 3] "United States" "US" s2).2.userRateLimits
        = s2.userRateLimits) ∧
    (generateAIAuction 5 ⟨true, true⟩ w0 [1, 2, 3] "United States" "US" sOpen).1
      = { sampleAuction with source := "grok" } ∧
    (generateAIAuction 5 ⟨true, true⟩ w0 [1, 2, 3] "United States" "US" sOpen).2.grokCalls
      = sOpen.grokCalls + 1 ∧
    (generateAIAuction 5 ⟨true, true⟩ w0 [1, 2, 3] "United States" "US" sOpen).2.auctionWrites
      = sOpen.auctionWrites ++
        [(auctionCacheKey [1, 2, 3] "US", { sampleAuction with source := "grok" })] :=
  c2_auction_no_rate_limit 5 ⟨true, true⟩ w0 [1, 2, 3] "United States" "US" sOpen
    sampleAuction rfl rfl rfl rfl rfl rfl

/-- C4 witness: times 0, 1, 2 in one window and 60001 in the next, the fresh
state, the store down and Grok healthy. -/
theorem c4_witness :
    (generateAIProfile 0 ⟨true, true⟩ wStoreDown {} none s0).1.source = "ai" ∧
    (generateAIProfile 1 ⟨true, true⟩ wStoreDown {} none
        (generateAIProfile 0 ⟨true, true⟩ wStoreDown {} none s0).2).1.source = "ai" ∧
    (generateAIProfile 2 ⟨true, true⟩ wStoreDown {} none
        (generateAIProfile 1 ⟨true, true⟩ wStoreDown {} none
          (generateAIProfile 0 ⟨true, true⟩ wStoreDown {} none s0).2).2).1
      = { profile := some (generateFallbackProfile {} none), source := "fallback",
          error := some "Rate limited" } ∧
    (generateAIProfile 60001 ⟨true, true⟩ wStoreDown {} none
        (generateAIProfile 1 ⟨true, true⟩ wStoreDown {} none
          (generateAIProfile 0 ⟨true, true⟩ wStoreDown {} none s0).2).2).1.source
      = "ai" :=
  c4_rate_limit_boundary 0 1 2 60001 ⟨true, true⟩ wStoreDown {} none s0 sampleProfile
    rfl rfl rfl rfl rfl rfl (by decide) (by decide) (by decide)

/-- C8 witness: three repeated visits of the visitor "a:b" against an open
tracking connection, starting from an empty visitor set. -/
theorem c8_witness :
    (repeatTrack 0 w0 "a" "b" (2 + 1) sOpen).1 = true :: List.replicate 2 false ∧
    (getTotalUniqueVisitors 0 w0 (trackUniqueVisitor 0 w0 "a" "b" sOpen).2).1
      = (getTotalUniqueVisitors 0 w0 sOpen).1 + 1 ∧
    (getTotalUniqueVisitors 0 w0 (repeatTrack 0 w0 "a" "b" (2 + 1) sOpen).2).1
      = (getTotalUniqueVisitors 0 w0 sOpen).1 + 1 :=
  c8_visitor_idempotence 0 w0 "a" "b" sOpen 2 rfl rfl rfl rfl rfl

/-- C9 witness: two concrete identity-less requests (differing in their other
fields) against an open connection, an empty cache and a healthy provider. -/
theorem c9_witness :
    jsOrStr (ClientInfo.fingerprintId {}) "unknown" = "unknown" ∧
    jsOrStr (ClientInfo.crossBrowserId {}) "unknown" = "unknown" ∧
    jsOrStr (ClientInfo.fingerprintId { screenWidth := some 1920 }) "unknown" = "unknown" ∧
    jsOrStr (ClientInfo.crossBrowserId { screenWidth := some 1920 }) "unknown" = "unknown" ∧
    getCacheKey (jsOrStr (ClientInfo.fingerprintId {}) "unknown")
        (jsOrStr (ClientInfo.crossBrowserId {}) "unknown") =
      getCacheKey (jsOrStr (ClientInfo.fingerprintId { screenWidth := some 1920 }) "unknown")
        (jsOrStr (ClientInfo.crossBrowserId { screenWidth := some 1920 }) "unknown") ∧
    (jsOrStr (ClientInfo.fingerprintId {}) "unknown" ++ ":" ++
        jsOrStr (ClientInfo.crossBrowserId {}) "unknown") =
      (jsOrStr (ClientInfo.fingerprintId { screenWidth := some 1920 }) "unknown" ++ ":" ++
        jsOrStr (ClientInfo.crossBrowserId { screenWidth := some 1920 }) "unknown") ∧
    (generateAIProfile 0 ⟨true, true⟩ w0 {} none sOpen).1.source = "ai" ∧
    (generateAIProfile 0 ⟨true, true⟩ w0 { screenWidth := some 1920 } none
        (generateAIProfile 0 ⟨true, true⟩ w0 {} none sOpen).2).1.source = "cache" ∧
    (generateAIProfile 0 ⟨true, true⟩ w0 { screenWidth := some 1920 } none
        (generateAIProfile 0 ⟨true, true⟩ w0 {} none sOpen).2).1.profile =
      (generateAIProfile 0 ⟨true, true⟩ w0 {} none sOpen).1.profile :=
  c9_unknown_identity_collapse 0 ⟨true, true⟩ w0 {} { screenWidth := some 1920 } none none
    sOpen sampleProfile rfl rfl rfl rfl rfl rfl rfl rfl rfl rfl rfl rfl

/-- C10 witness: two distinct 25-byte summaries agreeing on their first 24
bytes; the first request's auction result is already cached and the second
request is served it. -/
theorem c10_witness :
    auctionCacheKey (List.replicate 24 97 ++ [88]) "US"
      = auctionCacheKey (List.replicate 24 97 ++ [89]) "US" ∧
    generateAIAuction 0 ⟨true, true⟩ w0 (List.replicate 24 97 ++ [89]) "United States" "US"
        { sOpen with auctionStore :=
            [(auctionCacheKey (List.replicate 24 97 ++ [88]) "US", sampleAuction)] }
      = (sampleAuction,
         { sOpen with auctionStore :=
             [(auctionCacheKey (List.replicate 24 97 ++ [88]) "US", sampleAuction)] }) :=
  c10_auction_key_prefix_collision (List.replicate 24 97 ++ [88]) (List.replicate 24 97 ++ [89])
    "US" "United States" sampleAuction 0 ⟨true, true⟩ w0
    { sOpen with auctionStore :=
        [(auctionCacheKey (List.replicate 24 97 ++ [88]) "US", sampleAuction)] }
    (by decide) (by decide) rfl rfl rfl rfl

end AIProfiler
